import Mathlib

/-!
Verification development for the Space Invaders per-frame simulation core
(`src/space_invaders/scenes/space_invaders.py`).

Shallow embedding conventions:
* Python floats are modelled as `ℚ` (every IEEE double is a rational, and all
  arithmetic appearing in this module is field arithmetic on such values).
* Appearance data (texture ids, `Animation` objects, fps, frames) is opaque to
  the simulation — the spec excludes rendering — and is omitted from entity
  records, except where a collision system appends a visual `Effect` (whose
  creation is guarded by the optional effect texture, which we keep).
* Python object identity (`id(alien)`) is modelled by an explicit `id : Nat`
  field on `Alien`; the scene creates each alien once, so ids are unique.
* `random.uniform` / `random.choice` and the floating-point square root in the
  homing system return floats, i.e. rationals; they are modelled as oracle
  parameters, and the theorems below are proved for every oracle value.
* Each `XSystem.step` becomes a pure function `xStep : World → … → World`;
  the pipeline driver runs the systems once per frame in ascending `order`
  (ties resolved by registration order, as Python's stable sort does), which
  the `frame` function composes explicitly.
-/

namespace SpaceInvaders

/-- Axis-aligned 2-D position (`Position2D` in the source). -/
structure Position2D where
  x : ℚ
  y : ℚ
  deriving DecidableEq, Repr

/-- Axis-aligned 2-D size (`Size2D` in the source). -/
structure Size2D where
  width : ℚ
  height : ℚ
  deriving DecidableEq, Repr

/-- 2-D velocity (`Velocity2D` in the source). -/
structure Velocity2D where
  vx : ℚ
  vy : ℚ
  deriving DecidableEq, Repr

/-- Modelled from the spec: `Velocity2D.advance` lives in the external
`mini_arcade_core` collaborator, which is not under `src/`; the spec states
"position integrates by velocity × delta-time". -/
def Velocity2D.advance (v : Velocity2D) (x y dt : ℚ) : ℚ × ℚ :=
  (x + v.vx * dt, y + v.vy * dt)

/-- An axis-aligned rectangle: `RectCollider` of the external collision
primitive, i.e. a position (top-left corner) plus a size. -/
structure Rect where
  pos : Position2D
  size : Size2D
  deriving DecidableEq, Repr

/-- Modelled from the spec: the collision primitive (`RectCollider.intersects`)
lives in the external `mini_arcade_core` collaborator, not under `src/`. The
spec's contract: "given two axis-aligned rectangles (position + size), returns
whether they overlap (inclusive of touching edges is an implementation choice
but must be applied consistently everywhere)". We choose the inclusive-edge
overlap test and apply it everywhere; no claim below is settled on a
touching-edge boundary case. -/
def Rect.intersects (r s : Rect) : Bool :=
  decide (r.pos.x ≤ s.pos.x + s.size.width) &&
  decide (s.pos.x ≤ r.pos.x + r.size.width) &&
  decide (r.pos.y ≤ s.pos.y + s.size.height) &&
  decide (s.pos.y ≤ r.pos.y + r.size.height)

/-- Bullet ownership tag (`BulletOwner = Literal["ship", "alien"]`). -/
inductive BulletOwner where
  | ship
  | alien
  deriving DecidableEq, Repr

/-- Enemy projectile variant (`ProjectileKind`). -/
inductive ProjectileKind where
  | A
  | B
  | C
  deriving DecidableEq, Repr

/-- Enemy projectile variant data (`ProjectileSpec`); the four animation
frames and fps are appearance-only and omitted. -/
structure ProjectileSpec where
  speed : ℚ
  size : Size2D
  deriving DecidableEq, Repr

/-- The player ship (`Ship`). Its kinematic body (`Kinematic2D`) is flattened
into position/size/velocity/speed; appearance handles are omitted. -/
structure Ship where
  position : Position2D
  size : Size2D
  velocity : Velocity2D
  speed : ℚ
  exploding : Bool
  explode_timer : ℚ
  deriving DecidableEq, Repr

/-- An alien (`Alien`). `id` models Python object identity (`id(alien)`),
which the missile subsystem uses as its weak target reference. -/
structure Alien where
  id : Nat
  position : Position2D
  size : Size2D
  velocity : Velocity2D
  speed : ℚ
  exploding : Bool
  explode_timer : ℚ
  row : ℤ
  col : ℤ
  fire_cd : ℚ
  deriving DecidableEq, Repr

/-- `Alien.collider` property. -/
def Alien.collider (a : Alien) : Rect := ⟨a.position, a.size⟩

/-- A bullet (`Bullet`). -/
structure Bullet where
  position : Position2D
  size : Size2D
  velocity : Velocity2D
  owner : BulletOwner
  alive : Bool
  deriving DecidableEq, Repr

/-- `Bullet.collider` property. -/
def Bullet.collider (b : Bullet) : Rect := ⟨b.position, b.size⟩

/-- A homing missile (`Missile`); `target_id` stores the Python identity of
the targeted alien. -/
structure Missile where
  position : Position2D
  size : Size2D
  velocity : Velocity2D
  alive : Bool
  target_id : Option Nat
  speed : ℚ
  deriving DecidableEq, Repr

/-- `Missile.collider` property. -/
def Missile.collider (m : Missile) : Rect := ⟨m.position, m.size⟩

/-- A shelter (`Shelter`); damage is the integer damage level, 0 = full. -/
structure Shelter where
  position : Position2D
  size : Size2D
  damage : Nat
  alive : Bool
  deriving DecidableEq, Repr

/-- `Shelter.collider` property. -/
def Shelter.collider (s : Shelter) : Rect := ⟨s.position, s.size⟩

/-- A transient visual effect (`Effect`). -/
structure Effect where
  position : Position2D
  size : Size2D
  texture : Nat
  ttl : ℚ
  alive : Bool
  deriving DecidableEq, Repr

/-- The per-frame player command snapshot (`SpaceInvadersIntent`). The input
system always produces one before the gameplay systems run, so the embedding
treats the intent as always present. -/
structure Intent where
  move_ship_left : ℚ
  move_ship_right : ℚ
  fire_bullet : Bool
  fire_omega_ray : Bool
  toggle_missile_target : Bool
  missile_target_left : Bool
  missile_target_right : Bool
  missile_launch : Bool
  missile_target_up : Bool
  missile_target_down : Bool
  shield_toggle : Bool
  deriving DecidableEq, Repr

/-- The world state (`SpaceInvadersWorld`). The `viewport` tuple is split in
two fields; the projectile-spec dict is a function (the scene populates
exactly the three kinds); animation and texture fields are omitted except the
optional enemy-impact effect texture, which gates `spawn_effect`. -/
structure World where
  viewport_w : ℚ
  viewport_h : ℚ
  ship : Ship
  aliens : List Alien
  aliens_direction : ℚ
  bullets : List Bullet
  ship_fire_cooldown : ℚ
  ship_fire_timer : ℚ
  projectile_specs : ProjectileKind → Option ProjectileSpec
  alien_fire_timer : ℚ
  alien_fire_cooldown_min : ℚ
  alien_fire_cooldown_max : ℚ
  max_alien_bullets : Nat
  omega_active : Bool
  omega_timer : ℚ
  omega_charge_timer : ℚ
  omega_x : Option ℚ
  omega_cooldown : ℚ
  omega_cd_timer : ℚ
  omega_width : ℚ
  missile_targeting : Bool
  missile_target_idx : Option Nat
  missile_cooldown : ℚ
  missile_cd_timer : ℚ
  missiles : List Missile
  shelters : List Shelter
  effects : List Effect
  fx_enemy_proj_tex : Option Nat
  fx_ttl : ℚ
  shield_active : Bool
  shield_timer : ℚ
  shield_duration : ℚ
  shield_cd_timer : ℚ
  shield_cooldown : ℚ
  shield_scale : ℚ
  ship_explosion_time : ℚ

/-- `spawn_effect`: appends a visual effect unless the texture handle is
absent. -/
def spawnEffect (es : List Effect) (tex : Option Nat) (x y w h ttl : ℚ) :
    List Effect :=
  match tex with
  | none => es
  | some t => es ++ [⟨⟨x, y⟩, ⟨w, h⟩, t, ttl, true⟩]

/-- The enemy-impact effect the collision systems spawn at a projectile's
position (a 24×24 sprite offset by (−8, −8)). -/
def hitEffect (es : List Effect) (w : World) (x y : ℚ) : List Effect :=
  spawnEffect es w.fx_enemy_proj_tex (x - 8) (y - 8) 24 24 w.fx_ttl

/-! ### System steps (order 20–33): movement, state machines, spawning -/

/-- `ShipSystem.step` (order 20): horizontal velocity from the intent,
integrate, then clamp the *post-move* x position to `[0, vw − width]`. -/
def shipStep (w : World) (it : Intent) (dt : ℚ) : World :=
  let moveX := it.move_ship_right - it.move_ship_left
  let vx := moveX * w.ship.speed
  let x1 := w.ship.position.x + vx * dt
  let y1 := w.ship.position.y + 0 * dt
  let x := max 0 (min (w.viewport_w - w.ship.size.width) x1)
  { w with ship := { w.ship with
      velocity := ⟨vx, 0⟩, position := ⟨x, y1⟩ } }

/-- The candidate scoring search of `MissileTargetSystem.step.find_in_dir`:
among the live aliens on the requested side of the current target, pick the
lowest `(manhattan + off-axis penalty)` score; Python's stable sort makes
ties resolve to the earliest list index. -/
def findInDir (alive : List Alien) (cur : Alien) (drow dcol : ℤ) :
    Option Nat :=
  let candidates := (alive.enum.filterMap fun (idx, a) =>
    if a.id = cur.id then none
    else
      let dr := a.row - cur.row
      let dc := a.col - cur.col
      if drow ≠ 0 ∧ (dr = 0 ∨ (decide (dr > 0) ≠ decide (drow > 0))) then none
      else if dcol ≠ 0 ∧ (dc = 0 ∨ (decide (dc > 0) ≠ decide (dcol > 0))) then
        none
      else
        let sameAxis := (dcol ≠ 0 ∧ a.row = cur.row) ∨
          (drow ≠ 0 ∧ a.col = cur.col)
        let score := dr.natAbs + dc.natAbs + (if sameAxis then 0 else 1000)
        some (score, idx))
  (candidates.foldl (fun best c =>
    match best with
    | none => some c
    | some b => if c.1 < b.1 then some c else some b) none).map (·.2)

/-- `MissileTargetSystem.step` (order 21): tick the launch cooldown, drop
targeting when no alien is alive, toggle targeting mode, keep the cursor
index valid, and cycle the cursor in the requested cardinal direction. -/
def missileTargetStep (w : World) (it : Intent) (dt : ℚ) : World :=
  let cd := if w.missile_cd_timer > 0 then max 0 (w.missile_cd_timer - dt)
    else w.missile_cd_timer
  let w := { w with missile_cd_timer := cd }
  let alive := w.aliens.filter (fun a => !a.exploding)
  if alive.isEmpty then
    { w with missile_targeting := false, missile_target_idx := none }
  else if it.toggle_missile_target then
    let targeting := !w.missile_targeting
    let idx :=
      if targeting then
        match w.missile_target_idx with
        | none => some 0
        | some i => if i ≥ alive.length then some 0 else some i
      else w.missile_target_idx
    { w with missile_targeting := targeting, missile_target_idx := idx }
  else if !w.missile_targeting then w
  else
    let idx0 := w.missile_target_idx.getD 0
    let idx := max 0 (min (alive.length - 1) idx0)
    match alive.get? idx with
    | none => { w with missile_target_idx := some idx }
    | some cur =>
      let next :=
        if it.missile_target_left then findInDir alive cur 0 (-1)
        else if it.missile_target_right then findInDir alive cur 0 1
        else if it.missile_target_up then findInDir alive cur (-1) 0
        else if it.missile_target_down then findInDir alive cur 1 0
        else none
      match next with
      | some j => { w with missile_target_idx := some j }
      | none => { w with missile_target_idx := some idx }

/-- `ShieldSystem.step` (order 22): tick the cooldown, tick the active timer
(deactivating on expiry), then accept a toggle only when not active and the
cooldown has elapsed. -/
def shieldStep (w : World) (it : Intent) (dt : ℚ) : World :=
  let cd := if w.shield_cd_timer > 0 then max 0 (w.shield_cd_timer - dt)
    else w.shield_cd_timer
  let (active, timer) :=
    if w.shield_active then
      let t := max 0 (w.shield_timer - dt)
      (decide (t > 0), t)
    else (w.shield_active, w.shield_timer)
  if it.shield_toggle ∧ active = false ∧ cd ≤ 0 then
    { w with
        shield_active := true
        shield_timer := w.shield_duration
        shield_cd_timer := w.shield_cooldown }
  else
    { w with
        shield_active := active
        shield_timer := timer
        shield_cd_timer := cd }

/-- `BulletSpawnSystem` constants. -/
def bulletW : ℚ := 4
/-- `BulletSpawnSystem` constants. -/
def bulletH : ℚ := 10
/-- `BulletSpawnSystem` constants. -/
def bulletSpeed : ℚ := 520

/-- The ship-owned bullet `BulletSpawnSystem.step` appends: horizontally
centered on the ship, bottom edge at the ship's top edge. -/
def shipBullet (w : World) : Bullet :=
  let bx := w.ship.position.x + w.ship.size.width / 2 - bulletW / 2
  let by_ := w.ship.position.y - bulletH
  ⟨⟨bx, by_⟩, ⟨bulletW, bulletH⟩, ⟨0, -bulletSpeed⟩, .ship, true⟩

/-- The per-frame countdown `BulletSpawnSystem.step` applies to the ship
fire cooldown timer before the fire check. -/
def shipFireTimerTicked (w : World) (dt : ℚ) : ℚ :=
  if w.ship_fire_timer > 0 then max 0 (w.ship_fire_timer - dt)
  else w.ship_fire_timer

/-- `BulletSpawnSystem.step` (order 25): tick the fire cooldown every frame;
spawn one ship bullet from the ship's top-center only when the intent fires
and the (post-tick) timer has reached zero, then reset the timer to the
fire-rate constant. -/
def bulletSpawnStep (w : World) (it : Intent) (dt : ℚ) : World :=
  let t := shipFireTimerTicked w dt
  if !it.fire_bullet then { w with ship_fire_timer := t }
  else if t > 0 then { w with ship_fire_timer := t }
  else
    { w with
        bullets := w.bullets ++ [shipBullet w]
        ship_fire_timer := w.ship_fire_cooldown }

/-- `MissileSpawnSystem` constant: the missile sprite size. -/
def missileSize : Size2D := ⟨14, 22⟩

/-- `MissileSpawnSystem.step` (order 26): on a launch intent while targeting
mode is on and the launch cooldown has elapsed, spawn a missile above the
ship with an upward kick, storing the selected alien's identity; exit
targeting and start the cooldown. (An out-of-range cursor index would raise
`IndexError` in Python; the targeting system at order 21 keeps the index in
range, so that branch is unreachable in the pipeline and maps to a no-op.) -/
def missileSpawnStep (w : World) (it : Intent) : World :=
  if !it.missile_launch then w
  else if !w.missile_targeting then w
  else if w.missile_cd_timer > 0 then w
  else
    let alive := w.aliens.filter (fun a => !a.exploding)
    if alive.isEmpty then w
    else
      match w.missile_target_idx with
      | none => w
      | some idx =>
        match alive.get? idx with
        | none => w
        | some target =>
          let mx := w.ship.position.x + w.ship.size.width / 2 -
            missileSize.width / 2
          let my := w.ship.position.y - missileSize.height
          { w with
              missiles := w.missiles ++
                [⟨⟨mx, my⟩, missileSize, ⟨0, -250⟩, true, some target.id,
                  520⟩]
              missile_cd_timer := w.missile_cooldown
              missile_targeting := false }

/-- `AlienSystem` constant: the fixed formation drop step. -/
def dropStep : ℚ := 18

/-- `AlienSystem.step` (order 30): set every alien's horizontal velocity from
the shared direction, predict whether any alien's next x would reach or cross
either wall, and either flip the direction and drop the whole formation (no
horizontal move that tick) or commit the horizontal move. -/
def alienStep (w : World) (dt : ℚ) : World :=
  if w.aliens.isEmpty then w
  else
    let dirX := w.aliens_direction
    let aliens1 := w.aliens.map fun a =>
      { a with velocity := ⟨dirX * a.speed, 0⟩ }
    let hitWall := aliens1.any fun a =>
      let nextX := (a.velocity.advance a.position.x a.position.y dt).1
      decide (nextX ≤ 0) || decide (nextX + a.size.width ≥ w.viewport_w)
    if hitWall then
      { w with
          aliens_direction := -dirX
          aliens := aliens1.map fun a =>
            { a with position := ⟨a.position.x, a.position.y + dropStep⟩ } }
    else
      { w with aliens := aliens1.map fun a =>
          { a with position :=
              ⟨(a.velocity.advance a.position.x a.position.y dt).1,
                a.position.y⟩ } }

/-- `AlienFireSystem._bottom_most_by_column`: per column, the live
(non-exploding, cooled-down) alien with the greatest row, in first-seen
column order (Python dict insertion order). -/
def bottomMostByColumn (aliens : List Alien) : List Alien :=
  (aliens.foldl (fun best a =>
    if a.exploding then best
    else if a.fire_cd > 0 then best
    else if best.any (fun p => p.1 == a.col) then
      best.map fun p =>
        if p.1 == a.col ∧ a.row > p.2.row then (p.1, a) else p
    else best ++ [(a.col, a)]) []).map (·.2)

/-- `AlienFireSystem._infer_rows`: row count = max row index + 1. -/
def inferRows (aliens : List Alien) : ℤ :=
  match aliens with
  | [] => 0
  | a :: rest => (rest.foldl (fun m x => max m x.row) a.row) + 1

/-- `AlienFireSystem._projectile_kind_for_row`: bottom two rows fire the A
variant, the middle band fires B, the top row fires C, other rows fall back
to B; `none` when there are no rows. -/
def projectileKindForRow (row totalRows : ℤ) : Option ProjectileKind :=
  if totalRows ≤ 0 then none
  else if row ≥ totalRows - 2 then some .A
  else if totalRows ≥ 4 ∧ (row = totalRows - 4 ∨ row = totalRows - 3) then
    some .B
  else if row = 0 then some .C
  else some .B

/-- The values Python's `random` module supplies to `AlienFireSystem.step`
and the float square root used by `MissileHomingSystem.step`. A Python float
is a rational, so quantifying over all rational-valued oracles covers every
actual run. -/
structure Oracle where
  fire_timer : ℚ
  choice : Nat
  shooter_cd : ℚ
  sqrtQ : ℚ → ℚ

/-- The number of currently live alien-owned bullets, the quantity
`AlienFireSystem.step` checks against `max_alien_bullets`. -/
def aliveAlienBulletCount (w : World) : Nat :=
  (w.bullets.filter fun b => b.alive && b.owner == .alien).length

/-- The per-frame countdown `AlienFireSystem.step` applies to each alien's
private fire cooldown. -/
def alienCdTicked (dt : ℚ) (a : Alien) : Alien :=
  if a.fire_cd > 0 then { a with fire_cd := max 0 (a.fire_cd - dt) } else a

/-- `AlienFireSystem.step` (order 32): tick per-alien cooldowns, tick the
global timer; on expiry, if the live enemy-bullet count is saturated set the
short retry interval (0.15 s) and stop, otherwise draw a fresh random
interval, pick a random front-line shooter, and spawn its row's projectile
variant from the shooter's bottom-center, giving the shooter a private
cooldown. -/
def alienFireStep (w : World) (dt : ℚ) (o : Oracle) : World :=
  if w.aliens.isEmpty then w
  else
    let aliens1 := w.aliens.map (alienCdTicked dt)
    let timer1 := w.alien_fire_timer - dt
    let w1 := { w with aliens := aliens1, alien_fire_timer := timer1 }
    if timer1 > 0 then w1
    else
      let activeAlienBullets := aliveAlienBulletCount w1
      if activeAlienBullets ≥ w1.max_alien_bullets then
        { w1 with alien_fire_timer := 0.15 }
      else
        let w2 := { w1 with alien_fire_timer := o.fire_timer }
        let shooters := bottomMostByColumn w2.aliens
        if shooters.isEmpty then w2
        else
          match shooters.get? (o.choice % shooters.length) with
          | none => w2
          | some shooter =>
            match projectileKindForRow shooter.row (inferRows w2.aliens) with
            | none => w2
            | some kind =>
              match w2.projectile_specs kind with
              | none => w2
              | some spec =>
                let bx := shooter.position.x + shooter.size.width / 2 -
                  spec.size.width / 2
                let by_ := shooter.position.y + shooter.size.height
                { w2 with
                    bullets := w2.bullets ++
                      [⟨⟨bx, by_⟩, spec.size, ⟨0, spec.speed⟩, .alien, true⟩]
                    aliens := w2.aliens.map fun a =>
                      if a.id == shooter.id then
                        { a with fire_cd := o.shooter_cd }
                      else a }

/-- `OmegaRaySystem` constants. -/
def omegaChargeTime : ℚ := 0.8
/-- `OmegaRaySystem` constants. -/
def omegaFireTime : ℚ := 1.2

/-- `OmegaRaySystem.step` (order 33): tick the cooldown; while active,
count the active timer down and on expiry deactivate, clear the locked
offset and start the cooldown; while charging, count the charge timer down
and on expiry become active; otherwise accept a fire intent only when the
(post-tick) cooldown has elapsed, locking the beam x from the ship's
current center and starting the charge. -/
def omegaRayStep (w : World) (it : Intent) (dt : ℚ) : World :=
  let cd := if w.omega_cd_timer > 0 then max 0 (w.omega_cd_timer - dt)
    else w.omega_cd_timer
  let w1 := { w with omega_cd_timer := cd }
  if w1.omega_active then
    let t := w1.omega_timer - dt
    if t ≤ 0 then
      { w1 with
          omega_timer := t
          omega_active := false
          omega_x := none
          omega_cd_timer := w1.omega_cooldown }
    else { w1 with omega_timer := t }
  else if w1.omega_charge_timer > 0 then
    let c := w1.omega_charge_timer - dt
    if c ≤ 0 then
      { w1 with
          omega_charge_timer := c
          omega_active := true
          omega_timer := omegaFireTime }
    else { w1 with omega_charge_timer := c }
  else if !it.fire_omega_ray then w1
  else if w1.omega_cd_timer > 0 then w1
  else
    let beamW := w1.omega_width
    let beamX := (w1.ship.position.x + w1.ship.size.width / 2) - beamW / 2
    { w1 with omega_x := some beamX, omega_charge_timer := omegaChargeTime }

/-- `BulletMoveSystem.step` (order 35): advance every live bullet by its
velocity × delta-time. -/
def bulletMoveStep (w : World) (dt : ℚ) : World :=
  if w.bullets.isEmpty then w
  else
    { w with bullets := w.bullets.map fun b =>
        if !b.alive then b
        else
          let p := b.velocity.advance b.position.x b.position.y dt
          { b with position := ⟨p.1, p.2⟩ } }

/-- `BulletCullSystem.step` (order 36, i.e. *before* the collision passes at
orders 41–45): keep only the bullets that are alive and not fully outside
the viewport. -/
def bulletCullStep (w : World) : World :=
  { w with bullets := w.bullets.filter fun b =>
      b.alive &&
      !(decide (b.position.y + b.size.height < 0) ||
        decide (b.position.y > w.viewport_h) ||
        decide (b.position.x + b.size.width < 0) ||
        decide (b.position.x > w.viewport_w)) }

/-- `MissileHomingSystem.step` (order 40): for every live missile whose
stored target is still among the non-exploding aliens, re-aim the velocity
as a unit vector toward the target's current center scaled by the missile
speed (the float square root is the oracle's `sqrtQ`); then integrate the
position regardless of the re-aim result. -/
def missileHomingStep (w : World) (dt : ℚ) (o : Oracle) : World :=
  if w.missiles.isEmpty then w
  else
    let aliveAliens := w.aliens.filter fun a => !a.exploding
    { w with missiles := w.missiles.map fun m =>
        if !m.alive then m
        else
          let target : Option Alien := match m.target_id with
            | none => none
            | some tid => aliveAliens.find? fun a => a.id == tid
          let m1 := match target with
            | none => m
            | some t =>
              let tcx := t.position.x + t.size.width / 2
              let tcy := t.position.y + t.size.height / 2
              let mcx := m.position.x + m.size.width / 2
              let mcy := m.position.y + m.size.height / 2
              let dx := tcx - mcx
              let dy := tcy - mcy
              let dist2 := dx * dx + dy * dy
              if dist2 > 0.0001 then
                let dist := o.sqrtQ dist2
                { m with velocity := ⟨dx / dist * m.speed,
                    dy / dist * m.speed⟩ }
              else m
          let p := m1.velocity.advance m1.position.x m1.position.y dt
          { m1 with position := ⟨p.1, p.2⟩ } }

/-- `MissileCullSystem.step` (order 47, i.e. *after* the collision passes):
keep only the missiles that are alive and not outside the viewport. -/
def missileCullStep (w : World) : World :=
  if w.missiles.isEmpty then w
  else
    { w with missiles := w.missiles.filter fun m =>
        m.alive &&
        !(decide (m.position.y > w.viewport_h) ||
          decide (m.position.y + m.size.height < 0) ||
          decide (m.position.x > w.viewport_w) ||
          decide (m.position.x + m.size.width < 0)) }

/-! ### Collision passes (orders 41–45) and lifecycle (46–90) -/

/-- The explosion duration the collision systems start
(`explosion_time = 0.20` on each of them). -/
def explosionTime : ℚ := 0.2

/-- Inner loop of `BulletMissileCollisionSystem.step`: kill the first live
missile intersecting the bullet; the boolean reports whether one was hit. -/
def killFirstMissile (b : Bullet) : List Missile → List Missile × Bool
  | [] => ([], false)
  | m :: ms =>
    if m.alive && b.collider.intersects m.collider then
      ({ m with alive := false } :: ms, true)
    else
      let r := killFirstMissile b ms
      (m :: r.1, r.2)

/-- Outer loop of `BulletMissileCollisionSystem.step` over the bullets,
threading the missile and effect lists. -/
def bmGo (w : World) : List Bullet → List Missile → List Effect →
    List Bullet × List Missile × List Effect
  | [], ms, es => ([], ms, es)
  | b :: bs, ms, es =>
    if b.alive && b.owner == .ship then
      match killFirstMissile b ms with
      | (ms', true) =>
        let es' := hitEffect es w b.position.x b.position.y
        match bmGo w bs ms' es' with
        | (bs', ms'', es'') => ({ b with alive := false } :: bs', ms'', es'')
      | (_, false) =>
        match bmGo w bs ms es with
        | (bs', ms'', es'') => (b :: bs', ms'', es'')
    else
      match bmGo w bs ms es with
      | (bs', ms'', es'') => (b :: bs', ms'', es'')

/-- `BulletMissileCollisionSystem.step` (order 41): every live ship-owned
bullet tests the missiles in order and destroys (marks dead) itself and the
first live missile it overlaps. -/
def bmStep (w : World) : World :=
  if w.bullets.isEmpty || w.missiles.isEmpty then w
  else
    let r := bmGo w w.bullets w.missiles w.effects
    { w with bullets := r.1, missiles := r.2.1, effects := r.2.2 }

/-- Mark the bullet at index `i` dead, if present. -/
def setBulletDead (bs : List Bullet) (i : Nat) : List Bullet :=
  match bs.get? i with
  | some b => bs.set i { b with alive := false }
  | none => bs

/-- Inner scan of `BulletBulletCollisionSystem.step`: the index of the first
live alien-owned bullet intersecting `b`. -/
def bbInner (b : Bullet) (bs : List Bullet) : Option Nat :=
  (List.range bs.length).find? fun j =>
    match bs.get? j with
    | some ab =>
      ab.owner == .alien && ab.alive && b.collider.intersects ab.collider
    | none => false

/-- `BulletBulletCollisionSystem.step` (order 42): mutual destruction of
ship bullets and alien bullets. Both roles live in `world.bullets`; the
Python loops iterate filtered snapshots of that one list while mutating the
shared objects, which (because a ship bullet can only be killed in its own
iteration) is equivalent to this index-ordered fold over the current list. -/
def bbStep (w : World) : World :=
  if w.bullets.isEmpty then w
  else if (w.bullets.filter fun b => b.alive && b.owner == .ship).isEmpty then
    w
  else if (w.bullets.filter fun b => b.alive && b.owner == .alien).isEmpty then
    w
  else
    let res := (List.range w.bullets.length).foldl
      (fun (st : List Bullet × List Effect) i =>
        match st.1.get? i with
        | none => st
        | some sb =>
          if sb.owner == .ship && sb.alive then
            match bbInner sb st.1 with
            | some j =>
              (setBulletDead (setBulletDead st.1 i) j,
                hitEffect st.2 w sb.position.x sb.position.y)
            | none => st
          else st) (w.bullets, w.effects)
    { w with bullets := res.1, effects := res.2 }

/-- Inner loop of `BulletShelterCollisionSystem.step`: the first live shelter
intersecting the bullet takes one damage (capped at `maxD`) and, under the
destroy-on-max policy, dies at the cap. -/
def hitFirstShelter (maxD : Nat) (dom : Bool) (b : Bullet) :
    List Shelter → List Shelter × Bool
  | [] => ([], false)
  | s :: ss =>
    if s.alive && b.collider.intersects s.collider then
      let dmg := if s.damage < maxD then s.damage + 1 else s.damage
      let alive' := if dom ∧ dmg ≥ maxD then false else s.alive
      ({ s with damage := dmg, alive := alive' } :: ss, true)
    else
      let r := hitFirstShelter maxD dom b ss
      (s :: r.1, r.2)

/-- Outer loop of `BulletShelterCollisionSystem.step` over the bullets. -/
def bsGo (w : World) (maxD : Nat) (dom : Bool) :
    List Bullet → List Shelter → List Effect →
    List Bullet × List Shelter × List Effect
  | [], ss, es => ([], ss, es)
  | b :: bs, ss, es =>
    if b.alive && b.owner == .alien then
      match hitFirstShelter maxD dom b ss with
      | (ss', true) =>
        let es' := hitEffect es w b.position.x b.position.y
        match bsGo w maxD dom bs ss' es' with
        | (bs', ss'', es'') => ({ b with alive := false } :: bs', ss'', es'')
      | (_, false) =>
        match bsGo w maxD dom bs ss es with
        | (bs', ss'', es'') => (b :: bs', ss'', es'')
    else
      match bsGo w maxD dom bs ss es with
      | (bs', ss'', es'') => (b :: bs', ss'', es'')

/-- `BulletShelterCollisionSystem.step` (order 43) with its configuration
fields (`max_damage = 9`, `destroy_on_max = False` by default). -/
def bulletShelterStep (maxD : Nat) (dom : Bool) (w : World) : World :=
  if w.bullets.isEmpty || w.shelters.isEmpty then w
  else
    let r := bsGo w maxD dom w.bullets w.shelters w.effects
    { w with bullets := r.1, shelters := r.2.1, effects := r.2.2 }

/-- The scaled shield rectangle centered on the ship, as
`BulletShieldCollisionSystem.step` builds it. -/
def shieldRect (w : World) : Rect :=
  let sw := w.ship.size.width
  let sh := w.ship.size.height
  let shw := sw * w.shield_scale
  let shh := sh * w.shield_scale
  ⟨⟨w.ship.position.x + sw / 2 - shw / 2,
    w.ship.position.y + sh / 2 - shh / 2⟩, ⟨shw, shh⟩⟩

/-- `BulletShieldCollisionSystem.step` (order 44): while the shield is
active, every live alien-owned bullet touching the scaled shield rectangle
is marked dead (with an impact effect). -/
def bulletShieldStep (w : World) : World :=
  if !w.shield_active || w.bullets.isEmpty then w
  else
    let r := shieldRect w
    { w with
        bullets := w.bullets.map fun b =>
          if b.alive && b.owner == .alien && r.intersects b.collider then
            { b with alive := false }
          else b
        effects := (w.bullets.filter fun b =>
          b.alive && b.owner == .alien && r.intersects b.collider).foldl
          (fun es b => hitEffect es w b.position.x b.position.y) w.effects }

/-- `OmegaRayDamageSystem.step` (order 44): while the beam is active, every
non-exploding alien intersecting the beam rectangle — the locked x offset,
the fixed beam width, from the top of the field down to `int(ship.y)` —
starts exploding. Python's `int()` truncates toward zero; composed with
`max(0, ·)` this equals `max 0 ⌊sy⌋`, which is what we write. -/
def omegaDamageStep (w : World) : World :=
  if !w.omega_active then w
  else
    match w.omega_x with
    | none => w
    | some ox =>
      if w.aliens.isEmpty then w
      else
        let beamH : ℚ := ((max 0 ⌊w.ship.position.y⌋ : ℤ) : ℚ)
        if beamH ≤ 0 then w
        else
          let beamRect : Rect := ⟨⟨ox, 0⟩, ⟨w.omega_width, beamH⟩⟩
          { w with aliens := w.aliens.map fun a =>
              if a.exploding then a
              else if beamRect.intersects a.collider then
                { a with exploding := true, explode_timer := explosionTime }
              else a }

/-- Start the explosion of the alien with identity `tid`. -/
def explodeAlien (als : List Alien) (tid : Nat) : List Alien :=
  als.map fun a =>
    if a.id == tid then
      { a with exploding := true, explode_timer := explosionTime }
    else a

/-- Loop of `MissileAlienCollisionSystem.step` over the missiles, threading
the alien list. `aliveIds` is the pass-start snapshot of the non-exploding
aliens' identities (the keys of Python's `alive_by_id` dict); the target's
rectangle is read from the current alien list, whose positions this pass
never changes. -/
def maGo (aliveIds : List Nat) : List Missile → List Alien →
    List Missile × List Alien
  | [], als => ([], als)
  | m :: ms, als =>
    if !m.alive then
      let r := maGo aliveIds ms als
      (m :: r.1, r.2)
    else
      match m.target_id with
      | none =>
        let r := maGo aliveIds ms als
        (m :: r.1, r.2)
      | some tid =>
        if !(aliveIds.contains tid) then
          let r := maGo aliveIds ms als
          ({ m with alive := false } :: r.1, r.2)
        else
          match als.find? (fun a => a.id == tid) with
          | none =>
            let r := maGo aliveIds ms als
            (m :: r.1, r.2)
          | some target =>
            if m.collider.intersects target.collider then
              let r := maGo aliveIds ms (explodeAlien als tid)
              ({ m with alive := false } :: r.1, r.2)
            else
              let r := maGo aliveIds ms als
              (m :: r.1, r.2)

/-- `MissileAlienCollisionSystem.step` (order 45): each live missile is
tested only against its own stored target; a missile whose target has left
the non-exploding set fizzles (is marked dead); a hit kills both. Note the
early return when either list is empty. -/
def missileAlienStep (w : World) : World :=
  if w.missiles.isEmpty || w.aliens.isEmpty then w
  else
    let aliveIds := (w.aliens.filter fun a => !a.exploding).map (·.id)
    let r := maGo aliveIds w.missiles w.aliens
    { w with missiles := r.1, aliens := r.2 }

/-- Inner loop of `BulletAlienCollisionSystem.step`: the first non-exploding
alien intersecting the bullet starts exploding. -/
def explodeFirstAlien (b : Bullet) : List Alien → List Alien × Bool
  | [] => ([], false)
  | a :: as_ =>
    if !a.exploding && b.collider.intersects a.collider then
      ({ a with exploding := true, explode_timer := explosionTime } :: as_,
        true)
    else
      let r := explodeFirstAlien b as_
      (a :: r.1, r.2)

/-- Outer loop of `BulletAlienCollisionSystem.step` over the bullets. -/
def baGo : List Bullet → List Alien → List Bullet × List Alien
  | [], als => ([], als)
  | b :: bs, als =>
    if b.alive && b.owner == .ship then
      match explodeFirstAlien b als with
      | (als', true) =>
        let r := baGo bs als'
        ({ b with alive := false } :: r.1, r.2)
      | (_, false) =>
        let r := baGo bs als
        (b :: r.1, r.2)
    else
      let r := baGo bs als
      (b :: r.1, r.2)

/-- `BulletAlienCollisionSystem.step` (order 45): ship bullets explode the
first alien they overlap and die doing so. -/
def bulletAlienStep (w : World) : World :=
  if w.bullets.isEmpty || w.aliens.isEmpty then w
  else
    let r := baGo w.bullets w.aliens
    { w with bullets := r.1, aliens := r.2 }

/-- Scan of `BulletShipCollisionSystem.step`: the first live alien-owned
bullet overlapping the ship rectangle is marked dead (then the loop breaks). -/
def shipHitGo (shipRect : Rect) : List Bullet → List Bullet × Bool
  | [] => ([], false)
  | b :: bs =>
    if b.alive && b.owner == .alien && shipRect.intersects b.collider then
      ({ b with alive := false } :: bs, true)
    else
      let r := shipHitGo shipRect bs
      (b :: r.1, r.2)

/-- `BulletShipCollisionSystem.step` (order 45): skipped entirely while the
ship is already exploding or the shield is active; otherwise the first alien
bullet overlapping the ship hitbox dies and the ship starts its explosion
substate. -/
def bulletShipStep (w : World) : World :=
  if w.ship.exploding || w.bullets.isEmpty then w
  else if w.shield_active then w
  else
    let r := shipHitGo ⟨w.ship.position, w.ship.size⟩ w.bullets
    if r.2 then
      { w with
          bullets := r.1
          ship := { w.ship with
            exploding := true
            explode_timer := w.ship_explosion_time } }
    else { w with bullets := r.1 }

/-- `ShipExplosionSystem.step` (order 46): count the ship explosion down and
clear the exploding substate on expiry. -/
def shipExplosionStep (w : World) (dt : ℚ) : World :=
  if !w.ship.exploding then w
  else
    let t := max 0 (w.ship.explode_timer - dt)
    if t ≤ 0 then
      { w with ship := { w.ship with explode_timer := t, exploding := false } }
    else
      { w with ship := { w.ship with explode_timer := t } }

/-- `ExplosionSystem.step` (order 46): exploding aliens count their timer
down and are dropped from the roster once it expires. -/
def explosionStep (w : World) (dt : ℚ) : World :=
  if w.aliens.isEmpty then w
  else
    { w with aliens := w.aliens.filterMap fun a =>
        if a.exploding then
          let t := a.explode_timer - dt
          if t > 0 then some { a with explode_timer := t } else none
        else some a }

/-- `EffectsSystem.step` (order 90): effects expire with their ttl. -/
def effectsStep (w : World) (dt : ℚ) : World :=
  if w.effects.isEmpty then w
  else
    { w with effects := w.effects.filterMap fun e =>
        if !e.alive then none
        else
          let t := e.ttl - dt
          if t > 0 then some { e with ttl := t } else none }

/-- The pipeline driver: one frame = the gameplay systems run once in
ascending `order` (ties by registration order, as the stable sort leaves
them): Ship 20, MissileTarget 21, Shield 22, BulletSpawn 25, MissileSpawn
26, Alien 30, AlienFire 32, OmegaRay 33, BulletMove 35, BulletCull 36,
MissileHoming 40, BulletMissile 41, BulletBullet 42, BulletShelter 43,
BulletShield 44, OmegaRayDamage 44, MissileAlien 45, BulletAlien 45,
BulletShip 45, ShipExplosion 46, Explosion 46, MissileCull 47, Effects 90.
The animation-only systems (orders 28 and 38) touch appearance state only
and are omitted. `frameUpToBulletCull` is the prefix of the frame up to and
including the bullet cull (order 36), which notably runs *before* the
collision passes. -/
def frameUpToBulletCull (w : World) (it : Intent) (dt : ℚ) (o : Oracle) :
    World :=
  let w := shipStep w it dt
  let w := missileTargetStep w it dt
  let w := shieldStep w it dt
  let w := bulletSpawnStep w it dt
  let w := missileSpawnStep w it
  let w := alienStep w dt
  let w := alienFireStep w dt o
  let w := omegaRayStep w it dt
  let w := bulletMoveStep w dt
  bulletCullStep w

/-- The rest of the frame after the bullet cull; see `frame`. -/
def frame (w : World) (it : Intent) (dt : ℚ) (o : Oracle) : World :=
  let w := frameUpToBulletCull w it dt o
  let w := missileHomingStep w dt o
  let w := bmStep w
  let w := bbStep w
  let w := bulletShelterStep 9 false w
  let w := bulletShieldStep w
  let w := omegaDamageStep w
  let w := missileAlienStep w
  let w := bulletAlienStep w
  let w := bulletShipStep w
  let w := shipExplosionStep w dt
  let w := explosionStep w dt
  let w := missileCullStep w
  effectsStep w dt

/-! ### Concrete baseline data for witnesses and counterexamples -/

/-- A baseline ship for concrete scenarios. -/
def ship0 : Ship :=
  { position := ⟨45, 80⟩, size := ⟨10, 5⟩, velocity := ⟨0, 0⟩, speed := 300,
    exploding := false, explode_timer := 0 }

/-- A baseline world for concrete scenarios: a 100×100 field, the baseline
ship, no entities, all weapons idle, the scene's timer constants. -/
def world0 : World where
  viewport_w := 100
  viewport_h := 100
  ship := ship0
  aliens := []
  aliens_direction := 1
  bullets := []
  ship_fire_cooldown := 0.2
  ship_fire_timer := 0
  projectile_specs := fun _ => none
  alien_fire_timer := 5
  alien_fire_cooldown_min := 0.8
  alien_fire_cooldown_max := 1.6
  max_alien_bullets := 2
  omega_active := false
  omega_timer := 0
  omega_charge_timer := 0
  omega_x := none
  omega_cooldown := 2.5
  omega_cd_timer := 0
  omega_width := 36
  missile_targeting := false
  missile_target_idx := none
  missile_cooldown := 1.5
  missile_cd_timer := 0
  missiles := []
  shelters := []
  effects := []
  fx_enemy_proj_tex := none
  fx_ttl := 0.12
  shield_active := false
  shield_timer := 0
  shield_duration := 1
  shield_cd_timer := 0
  shield_cooldown := 2
  shield_scale := 1.35
  ship_explosion_time := 0.45

/-- The all-idle intent. -/
def intent0 : Intent :=
  { move_ship_left := 0, move_ship_right := 0, fire_bullet := false,
    fire_omega_ray := false, toggle_missile_target := false,
    missile_target_left := false, missile_target_right := false,
    missile_launch := false, missile_target_up := false,
    missile_target_down := false, shield_toggle := false }

/-- A concrete oracle for scenarios in which no random draw is consumed. -/
def oracle0 : Oracle :=
  { fire_timer := 1, choice := 0, shooter_cd := 1, sqrtQ := fun _ => 1 }

/-- A baseline alien for concrete scenarios. -/
def alien0 : Alien :=
  { id := 1, position := ⟨10, 10⟩, size := ⟨38, 28⟩, velocity := ⟨0, 0⟩,
    speed := 10, exploding := false, explode_timer := 0, row := 0, col := 0,
    fire_cd := 0 }

/-! ### Derived predicates and concrete scenario worlds used by the claims -/

/-- The formation look-ahead condition of claim C4: some alien's predicted
next horizontal position (current x advanced by direction × speed ×
delta-time) reaches or crosses a horizontal bound. This is exactly the
prediction `AlienSystem.step` computes after setting the shared horizontal
velocity. -/
def formationWouldHitWall (w : World) (dt : ℚ) : Bool :=
  w.aliens.any fun a =>
    let nx := a.position.x + w.aliens_direction * a.speed * dt
    decide (nx ≤ 0) || decide (nx + a.size.width ≥ w.viewport_w)

/-- The frame's collision passes in pipeline order (41–45), at the default
shelter configuration. -/
def collisionPhase (w : World) : World :=
  bulletShipStep (bulletAlienStep (missileAlienStep (omegaDamageStep
    (bulletShieldStep (bulletShelterStep 9 false (bbStep (bmStep w)))))))

/-- The beam strip as claim C3 words it: the vertical strip at the locked
horizontal offset, of the fixed beam width, spanning from the top of the
field down to the ship's vertical position. (The code instead spans down to
`int(ship.y)`, i.e. `⌊ship.y⌋` after the `max(0, ·)`.) -/
def omegaStripSpec (w : World) (ox : ℚ) : Rect :=
  ⟨⟨ox, 0⟩, ⟨w.omega_width, w.ship.position.y⟩⟩

/-- The beam strip exactly as `OmegaRayDamageSystem.step` builds it. -/
def omegaStripCode (w : World) (ox : ℚ) : Rect :=
  ⟨⟨ox, 0⟩, ⟨w.omega_width, ((max 0 ⌊w.ship.position.y⌋ : ℤ) : ℚ)⟩⟩

/-- The concrete destroy-on-max-disabled scenario world for C9: one live
alien bullet overlapping a shelter at damage 8. -/
def worldC9 : World :=
  { world0 with
      bullets := [⟨⟨20, 20⟩, ⟨6, 14⟩, ⟨0, 100⟩, .alien, true⟩]
      shelters := [⟨⟨18, 22⟩, ⟨60, 40⟩, 8, true⟩] }

/-- The concrete world for the C2 witness: shield up, one live alien bullet
overlapping both the shield rectangle and the ship rectangle. -/
def worldC2 : World :=
  { world0 with
      shield_active := true
      bullets := [⟨⟨46, 80⟩, ⟨6, 14⟩, ⟨0, 100⟩, .alien, true⟩] }

/-- The concrete world refuting C10 as stated: one live ship bullet whose
rectangle covers two live missiles. -/
def worldC10 : World :=
  { world0 with
      bullets := [⟨⟨0, 0⟩, ⟨50, 50⟩, ⟨0, 0⟩, .ship, true⟩]
      missiles :=
        [⟨⟨0, 0⟩, ⟨5, 5⟩, ⟨0, 0⟩, true, some 1, 520⟩,
         ⟨⟨10, 10⟩, ⟨5, 5⟩, ⟨0, 0⟩, true, some 1, 520⟩] }

/-- The concrete world refuting C5 as stated: the alien roster is empty (so
the missile's stored target is certainly absent from the non-exploding
aliens), yet `MissileAlienCollisionSystem.step` returns at its
`if not w.missiles or not w.aliens` guard and the missile stays alive. -/
def worldC5 : World :=
  { world0 with
      missiles := [⟨⟨50, 50⟩, ⟨14, 22⟩, ⟨0, -250⟩, true, some 5, 520⟩] }

/-- The concrete world for the C5 witness: one alien (identity 1), one live
missile targeting the vanished identity 5. -/
def worldC5w : World :=
  { world0 with
      aliens := [alien0]
      missiles := [⟨⟨50, 50⟩, ⟨14, 22⟩, ⟨0, -250⟩, true, some 5, 520⟩] }

/-- A concrete world refuting C3's active-damage clause as stated: the beam
is active and an alien's rectangle lies strictly inside the claim's strip
(which reaches down to the ship's y of 1/2), but the code's beam height is
`max(0, int(1/2)) = 0`, so the damage pass returns without exploding it. -/
def worldC3 : World :=
  { world0 with
      ship := { ship0 with position := ⟨45, 1/2⟩ }
      omega_active := true
      omega_x := some 0
      omega_timer := 1
      aliens := [{ alien0 with position := ⟨0, 1/5⟩, size := ⟨10, 1/5⟩ }] }

/-- Concrete worlds for the C3 witness: cooling down, charging, and active
with an alien inside the code's strip. -/
def worldC3cd : World := { world0 with omega_cd_timer := 1 }

/-- See `worldC3cd`. -/
def worldC3ch : World := { world0 with omega_charge_timer := 1 }

/-- See `worldC3cd`. -/
def worldC3act : World :=
  { world0 with
      omega_active := true
      omega_timer := 1
      omega_x := some 40
      aliens := [{ alien0 with position := ⟨45, 20⟩ }] }

/-- The concrete world refuting C1's bullet half as stated: a live ship
bullet and a live alien bullet overlap; the bullet–bullet pass (order 42) of
the frame marks both dead, but the frame's bullet cull (order 36) has
already run by then, so both dead bullets are still in `world.bullets` when
the frame ends. -/
def worldC1 : World :=
  { world0 with
      bullets :=
        [⟨⟨50, 50⟩, ⟨4, 10⟩, ⟨0, 0⟩, .ship, true⟩,
         ⟨⟨50, 50⟩, ⟨6, 14⟩, ⟨0, 0⟩, .alien, true⟩] }

/-! ### Claim C8 — ship movement clamps after integrating -/

/-- C8: after every execution of the ship-movement step, the ship's
horizontal position lies within `[0, field_width − ship_width]`; the clamp is
applied to the position obtained after integrating velocity × delta-time
(clamp-after-integrate), for every intent and every non-negative delta-time.
(The interval is non-degenerate only when the ship fits the field, whence
the width hypothesis.) -/
theorem C8_ship_clamped_after_integrate (w : World) (it : Intent) (dt : ℚ)
    (hdt : 0 ≤ dt) (hw : w.ship.size.width ≤ w.viewport_w) :
    (shipStep w it dt).ship.position.x =
      max 0 (min (w.viewport_w - w.ship.size.width)
        (w.ship.position.x +
          (it.move_ship_right - it.move_ship_left) * w.ship.speed * dt)) ∧
    0 ≤ (shipStep w it dt).ship.position.x ∧
    (shipStep w it dt).ship.position.x ≤
      w.viewport_w - w.ship.size.width := by
  refine ⟨rfl, le_max_left _ _, max_le ?_ (min_le_left _ _)⟩
  linarith

/-- Witness for C8 at a concrete input. -/
theorem C8_ship_clamped_after_integrate_witness :
    0 ≤ (shipStep world0 intent0 1).ship.position.x ∧
    (shipStep world0 intent0 1).ship.position.x ≤
      world0.viewport_w - world0.ship.size.width :=
  (C8_ship_clamped_after_integrate world0 intent0 1 (by norm_num)
    (by norm_num [world0, ship0])).2

/-! ### Claim C4 — formation wall bounce and drop -/

/-- C4: on a tick with a non-empty alien collection, if some alien's
predicted next horizontal position would reach or cross either bound, the
shared direction flips sign, every alien's y increases by exactly the drop
step and no x changes; otherwise every alien moves horizontally by
direction × speed × delta-time and no y changes (and the direction is
kept). -/
theorem C4_formation_bounce (w : World) (dt : ℚ) (hne : w.aliens ≠ []) :
    (formationWouldHitWall w dt = true →
      (alienStep w dt).aliens_direction = -w.aliens_direction ∧
      List.Forall₂ (fun a a' : Alien =>
        a'.position.x = a.position.x ∧
        a'.position.y = a.position.y + dropStep)
        w.aliens (alienStep w dt).aliens) ∧
    (formationWouldHitWall w dt = false →
      (alienStep w dt).aliens_direction = w.aliens_direction ∧
      List.Forall₂ (fun a a' : Alien =>
        a'.position.x = a.position.x + w.aliens_direction * a.speed * dt ∧
        a'.position.y = a.position.y)
        w.aliens (alienStep w dt).aliens) := by
  have hempty : w.aliens.isEmpty = false := by
    simpa [List.isEmpty_iff] using hne
  have hpred :
      (w.aliens.map fun a =>
          { a with velocity := ⟨w.aliens_direction * a.speed, 0⟩ }).any
        (fun a =>
          decide ((a.velocity.advance a.position.x a.position.y dt).1 ≤ 0) ||
          decide ((a.velocity.advance a.position.x a.position.y dt).1 +
            a.size.width ≥ w.viewport_w)) = formationWouldHitWall w dt := by
    simp [formationWouldHitWall, List.any_map, Velocity2D.advance,
      Function.comp_def]
  constructor
  · intro hhit
    rw [alienStep, hempty]
    simp only [Bool.false_eq_true, if_false, hpred, hhit, if_true]
    refine ⟨by trivial, ?_⟩
    simp only [List.map_map, List.forall₂_map_right_iff]
    refine List.forall₂_same.2 fun a _ => ?_
    exact ⟨rfl, rfl⟩
  · intro hmiss
    rw [alienStep, hempty]
    simp only [Bool.false_eq_true, if_false, hpred, hmiss,
      Bool.false_eq_true, if_false]
    refine ⟨by trivial, ?_⟩
    simp only [List.map_map, List.forall₂_map_right_iff]
    refine List.forall₂_same.2 fun a _ => ?_
    exact ⟨by simp [Velocity2D.advance], rfl⟩

/-- The spec's own scenario as witness for C4: direction +1 with an alien at
the right boundary and a nonzero delta-time ⇒ direction becomes −1, y
increases by the drop step, x unchanged. -/
theorem C4_formation_bounce_witness :
    ((alienStep { world0 with
        aliens := [{ alien0 with position := ⟨90, 10⟩, size := ⟨10, 8⟩ }] }
      1).aliens_direction = -(1 : ℚ) ∧
    List.Forall₂ (fun a a' : Alien =>
      a'.position.x = a.position.x ∧
      a'.position.y = a.position.y + dropStep)
      [{ alien0 with position := ⟨90, 10⟩, size := ⟨10, 8⟩ }]
      ((alienStep { world0 with
        aliens := [{ alien0 with position := ⟨90, 10⟩, size := ⟨10, 8⟩ }] }
      1).aliens)) :=
  (C4_formation_bounce
    { world0 with
        aliens := [{ alien0 with position := ⟨90, 10⟩, size := ⟨10, 8⟩ }] }
    1 (by simp) |>.1) (by with_unfolding_all rfl)

/-! ### Claim C6 — ship primary-weapon spawning -/

/-- C6: the ship fire timer counts down every tick regardless of intent;
when the intent fires and the (post-countdown — the code checks the timer
after ticking it, "the timer has reached zero") timer is at zero, exactly
one ship-owned bullet is appended, horizontally centered on the ship with
its bottom edge at the ship's top edge, and the timer resets to the
fire-rate constant; otherwise no bullet is spawned and the timer is just
the ticked value. -/
theorem C6_bullet_spawn (w : World) (it : Intent) (dt : ℚ) :
    (it.fire_bullet = true → shipFireTimerTicked w dt ≤ 0 →
      (bulletSpawnStep w it dt).bullets = w.bullets ++ [shipBullet w] ∧
      (bulletSpawnStep w it dt).ship_fire_timer = w.ship_fire_cooldown ∧
      (shipBullet w).owner = .ship ∧
      (shipBullet w).position.x + (shipBullet w).size.width / 2 =
        w.ship.position.x + w.ship.size.width / 2 ∧
      (shipBullet w).position.y + (shipBullet w).size.height =
        w.ship.position.y) ∧
    ((it.fire_bullet = false ∨ 0 < shipFireTimerTicked w dt) →
      (bulletSpawnStep w it dt).bullets = w.bullets ∧
      (bulletSpawnStep w it dt).ship_fire_timer =
        shipFireTimerTicked w dt) := by
  constructor
  · intro hfire ht
    have hnot : ¬ (shipFireTimerTicked w dt > 0) := by linarith
    refine ⟨?_, ?_, rfl, ?_, ?_⟩
    · simp [bulletSpawnStep, hfire, hnot]
    · simp [bulletSpawnStep, hfire, hnot]
    · simp only [shipBullet, bulletW]
      ring
    · simp only [shipBullet, bulletH]
      ring
  · rintro (hfire | ht)
    · constructor <;> simp [bulletSpawnStep, hfire]
    · constructor <;> simp [bulletSpawnStep, ht]

/-- Witness for C6: the spec scenario — cooldown at 0, fire intent true ⇒
exactly one new ship bullet at the ship's top-center, cooldown reset. -/
theorem C6_bullet_spawn_witness :
    (bulletSpawnStep world0 { intent0 with fire_bullet := true } 1).bullets =
      world0.bullets ++ [shipBullet world0] ∧
    (bulletSpawnStep world0 { intent0 with fire_bullet := true }
      1).ship_fire_timer = world0.ship_fire_cooldown ∧
    (shipBullet world0).owner = .ship ∧
    (shipBullet world0).position.x + (shipBullet world0).size.width / 2 =
      world0.ship.position.x + world0.ship.size.width / 2 ∧
    (shipBullet world0).position.y + (shipBullet world0).size.height =
      world0.ship.position.y :=
  (C6_bullet_spawn world0 { intent0 with fire_bullet := true } 1).1 rfl
    (by norm_num [shipFireTimerTicked, world0])

/-! ### Claim C7 — saturated enemy-bullet cap degrades to a retry timer -/

/-- C7: when the global alien fire timer has expired but the live
alien-bullet count is at or above `max_alien_bullets`, no bullet is spawned,
the aliens change only by their regular per-unit cooldown tick (no firing
cooldown is assigned), and the global timer is set to the fixed 0.15 s
retry interval — independently of every random draw the oracle could
provide (no fresh interval from the full cooldown range is consumed). -/
theorem C7_saturated_fire_cap (w : World) (dt : ℚ) (o : Oracle)
    (hne : w.aliens ≠ []) (hexp : w.alien_fire_timer - dt ≤ 0)
    (hsat : w.max_alien_bullets ≤ aliveAlienBulletCount w) :
    (alienFireStep w dt o).bullets = w.bullets ∧
    (alienFireStep w dt o).alien_fire_timer = 0.15 ∧
    (alienFireStep w dt o).aliens = w.aliens.map (alienCdTicked dt) := by
  have hempty : w.aliens.isEmpty = false := by
    simpa [List.isEmpty_iff] using hne
  have hnot : ¬ (w.alien_fire_timer - dt > 0) := by linarith
  have hcount : aliveAlienBulletCount
      { w with aliens := w.aliens.map (alienCdTicked dt),
               alien_fire_timer := w.alien_fire_timer - dt } =
      aliveAlienBulletCount w := rfl
  refine ⟨?_, ?_, ?_⟩ <;>
    simp [alienFireStep, hempty, hnot, hcount, hsat]

/-- Witness for C7: two live alien bullets saturate the default cap of 2
while the timer expires; the timer becomes 0.15 and nothing fires. -/
theorem C7_saturated_fire_cap_witness :
    (alienFireStep
      { world0 with
          aliens := [alien0]
          alien_fire_timer := 0.5
          bullets :=
            [⟨⟨10, 10⟩, ⟨6, 14⟩, ⟨0, 100⟩, .alien, true⟩,
             ⟨⟨20, 10⟩, ⟨6, 14⟩, ⟨0, 100⟩, .alien, true⟩] }
      1 oracle0).alien_fire_timer = 0.15 ∧
    (alienFireStep
      { world0 with
          aliens := [alien0]
          alien_fire_timer := 0.5
          bullets :=
            [⟨⟨10, 10⟩, ⟨6, 14⟩, ⟨0, 100⟩, .alien, true⟩,
             ⟨⟨20, 10⟩, ⟨6, 14⟩, ⟨0, 100⟩, .alien, true⟩] }
      1 oracle0).bullets =
      [⟨⟨10, 10⟩, ⟨6, 14⟩, ⟨0, 100⟩, .alien, true⟩,
       ⟨⟨20, 10⟩, ⟨6, 14⟩, ⟨0, 100⟩, .alien, true⟩] := by
  have h := C7_saturated_fire_cap
    { world0 with
        aliens := [alien0]
        alien_fire_timer := 0.5
        bullets :=
          [⟨⟨10, 10⟩, ⟨6, 14⟩, ⟨0, 100⟩, .alien, true⟩,
           ⟨⟨20, 10⟩, ⟨6, 14⟩, ⟨0, 100⟩, .alien, true⟩] }
    1 oracle0 (by simp) (by norm_num)
    (by with_unfolding_all rfl)
  exact ⟨h.2.1, h.1⟩

/-! ### Claim C9 — shelter damage accounting -/

/-- Pointwise composition of two `Forall₂` relations (used to chain the
per-bullet effects of a collision pass). -/
theorem forall₂_chain {α : Type} {r s t : α → α → Prop}
    (h : ∀ a b c, r a b → s b c → t a c) :
    ∀ {l1 l2 l3 : List α}, List.Forall₂ r l1 l2 → List.Forall₂ s l2 l3 →
      List.Forall₂ t l1 l3 := by
  intro l1 l2 l3 h12
  induction h12 generalizing l3 with
  | nil =>
    intro h23
    cases h23
    exact .nil
  | cons hab h' ih =>
    intro h23
    cases h23 with
    | cons hbc h'' => exact .cons (h _ _ _ hab hbc) (ih h'')

/-- One `hitFirstShelter` application: damage is monotone and stays at or
under the cap. -/
theorem hitFirstShelter_damage (maxD : Nat) (dom : Bool) (b : Bullet)
    (ss : List Shelter) :
    List.Forall₂ (fun s s' : Shelter =>
      s.damage ≤ s'.damage ∧ (s.damage ≤ maxD → s'.damage ≤ maxD))
      ss (hitFirstShelter maxD dom b ss).1 := by
  induction ss with
  | nil => exact .nil
  | cons s ss ih =>
    by_cases h : (s.alive && b.collider.intersects s.collider) = true
    · simp only [hitFirstShelter, h, if_true]
      refine .cons ⟨?_, ?_⟩ (List.forall₂_same.2 fun _ _ => ⟨le_rfl, id⟩)
      · dsimp only
        split <;> omega
      · intro hle
        dsimp only
        split <;> omega
    · simp only [hitFirstShelter, h, if_false]
      exact .cons ⟨le_rfl, id⟩ ih

/-- The shelter list through the whole `BulletShelterCollisionSystem` pass:
damage is monotone and stays at or under the cap. -/
theorem bsGo_shelters_damage (w : World) (maxD : Nat) (dom : Bool)
    (bs : List Bullet) :
    ∀ (ss : List Shelter) (es : List Effect),
      List.Forall₂ (fun s s' : Shelter =>
        s.damage ≤ s'.damage ∧ (s.damage ≤ maxD → s'.damage ≤ maxD))
        ss (bsGo w maxD dom bs ss es).2.1 := by
  induction bs with
  | nil =>
    intro ss es
    exact List.forall₂_same.2 fun _ _ => ⟨le_rfl, id⟩
  | cons b bs ih =>
    intro ss es
    rw [bsGo]
    by_cases hb : (b.alive && b.owner == BulletOwner.alien) = true
    · rw [if_pos hb]
      rcases hh : hitFirstShelter maxD dom b ss with ⟨ss', hit⟩
      have h1 := hitFirstShelter_damage maxD dom b ss
      rw [hh] at h1
      cases hit
      · dsimp only
        rcases hgo : bsGo w maxD dom bs ss es with ⟨bs', ss'', es''⟩
        have h2 := ih ss es
        rw [hgo] at h2
        exact h2
      · dsimp only
        rcases hgo : bsGo w maxD dom bs ss'
            (hitEffect es w b.position.x b.position.y) with ⟨bs', ss'', es''⟩
        have h2 := ih ss' (hitEffect es w b.position.x b.position.y)
        rw [hgo] at h2
        exact forall₂_chain
          (fun _ _ _ hab hbc =>
            ⟨hab.1.trans hbc.1, fun hle => hbc.2 (hab.2 hle)⟩) h1 h2
    · rw [if_neg hb]
      rcases hgo : bsGo w maxD dom bs ss es with ⟨bs', ss'', es''⟩
      dsimp only
      have h2 := ih ss es
      rw [hgo] at h2
      exact h2

/-- `hitFirstShelter` reports a hit exactly when some live shelter overlaps
the bullet. -/
theorem hitFirstShelter_flag (maxD : Nat) (dom : Bool) (b : Bullet)
    (ss : List Shelter) :
    (hitFirstShelter maxD dom b ss).2 = true ↔
      ∃ s ∈ ss, s.alive = true ∧ b.collider.intersects s.collider = true := by
  induction ss with
  | nil => simp [hitFirstShelter]
  | cons s ss ih =>
    by_cases h : (s.alive && b.collider.intersects s.collider) = true
    · simp only [hitFirstShelter, h, if_true]
      simp only [Bool.and_eq_true] at h
      simp [h]
    · simp only [hitFirstShelter, h, Bool.false_eq_true, if_false]
      rw [ih]
      simp only [Bool.and_eq_true] at h
      constructor
      · rintro ⟨t, ht, hp⟩
        exact ⟨t, List.mem_cons_of_mem _ ht, hp⟩
      · rintro ⟨t, ht, hp⟩
        rcases List.mem_cons.1 ht with rfl | ht'
        · exact absurd ⟨hp.1, hp.2⟩ h
        · exact ⟨t, ht', hp⟩

/-- With the destroy-on-max policy disabled, a shelter pass never changes a
shelter's alive flag or rectangle. -/
theorem hitFirstShelter_skeleton (maxD : Nat) (b : Bullet)
    (ss : List Shelter) :
    List.Forall₂ (fun s s' : Shelter =>
      s.alive = s'.alive ∧ s.collider = s'.collider)
      ss (hitFirstShelter maxD false b ss).1 := by
  induction ss with
  | nil => exact .nil
  | cons s ss ih =>
    by_cases h : (s.alive && b.collider.intersects s.collider) = true
    · simp only [hitFirstShelter, h, if_true]
      refine .cons ⟨?_, rfl⟩ (List.forall₂_same.2 fun _ _ => ⟨rfl, rfl⟩)
      simp
    · simp only [hitFirstShelter, h, if_false]
      exact .cons ⟨rfl, rfl⟩ ih

/-- A live-overlapping-shelter condition transports along alive/rectangle
preservation. -/
theorem exists_hit_transport (b : Bullet) :
    ∀ {ss ss' : List Shelter}, List.Forall₂ (fun s s' : Shelter =>
      s.alive = s'.alive ∧ s.collider = s'.collider) ss ss' →
      ((∃ s ∈ ss, s.alive = true ∧ b.collider.intersects s.collider = true) ↔
       (∃ s ∈ ss', s.alive = true ∧
          b.collider.intersects s.collider = true)) := by
  intro ss ss' h
  induction h with
  | nil => simp
  | cons hrel h' ih =>
    simp only [List.exists_mem_cons_iff]
    rw [ih, hrel.1, hrel.2]

/-- Through the whole shelter pass (destroy-on-max disabled, the system's
default), every bullet that is alive, alien-owned and overlaps some live
shelter comes out marked dead. -/
theorem bsGo_kills (w : World) (maxD : Nat) (bs : List Bullet) :
    ∀ (ss : List Shelter) (es : List Effect),
      List.Forall₂ (fun b b' : Bullet =>
        b.alive = true → b.owner = .alien →
        (∃ s ∈ ss, s.alive = true ∧
          b.collider.intersects s.collider = true) →
        b'.alive = false)
        bs (bsGo w maxD false bs ss es).1 := by
  induction bs with
  | nil =>
    intro ss es
    exact .nil
  | cons b bs ih =>
    intro ss es
    rw [bsGo]
    by_cases hb : (b.alive && b.owner == BulletOwner.alien) = true
    · rw [if_pos hb]
      rcases hh : hitFirstShelter maxD false b ss with ⟨ss', hit⟩
      have hskel := hitFirstShelter_skeleton maxD b ss
      rw [hh] at hskel
      cases hit
      · try dsimp only
        rcases hgo : bsGo w maxD false bs ss es with ⟨bs', ss'', es''⟩
        have hflag := hitFirstShelter_flag maxD false b ss
        rw [hh] at hflag
        have h2 := ih ss es
        rw [hgo] at h2
        refine .cons (fun _ _ hex => ?_) h2
        exact absurd (hflag.2 hex) (by simp)
      · try dsimp only
        rcases hgo : bsGo w maxD false bs ss'
            (hitEffect es w b.position.x b.position.y) with ⟨bs', ss'', es''⟩
        have h2 := ih ss' (hitEffect es w b.position.x b.position.y)
        rw [hgo] at h2
        refine .cons (fun _ _ _ => rfl)
          (h2.imp fun _ _ hab => fun halive howner hexx =>
            hab halive howner ((exists_hit_transport _ hskel).1 hexx))
    · rw [if_neg hb]
      rcases hgo : bsGo w maxD false bs ss es with ⟨bs', ss'', es''⟩
      dsimp only
      have h2 := ih ss es
      rw [hgo] at h2
      refine .cons (fun halive howner _ => ?_) h2
      exact absurd (by simp [halive, howner]) hb

/-- C9: in the shelter pass, (1) shelter damage never decreases and never
exceeds the maximum (for any policy configuration); (2) with the default
destroy-on-max disabled, every live alien bullet overlapping a live shelter
is marked dead; (3) a single live alien bullet hitting a single live shelter
below the cap raises its damage by exactly one, leaves it alive (policy
disabled) and dies; (4) the spec scenario — shelter at damage 8, max damage
9, destroy-on-max disabled — ends at damage 9, still alive, bullet dead. -/
theorem C9_shelter_damage_accounting :
    (∀ (maxD : Nat) (dom : Bool) (w : World),
      List.Forall₂ (fun s s' : Shelter =>
        s.damage ≤ s'.damage ∧ (s.damage ≤ maxD → s'.damage ≤ maxD))
        w.shelters (bulletShelterStep maxD dom w).shelters) ∧
    (∀ (maxD : Nat) (w : World),
      List.Forall₂ (fun b b' : Bullet =>
        b.alive = true → b.owner = .alien →
        (∃ s ∈ w.shelters, s.alive = true ∧
          b.collider.intersects s.collider = true) →
        b'.alive = false)
        w.bullets (bulletShelterStep maxD false w).bullets) ∧
    (∀ (maxD : Nat) (w : World) (b : Bullet) (s : Shelter),
      w.bullets = [b] → w.shelters = [s] → b.alive = true →
      b.owner = .alien → s.alive = true →
      b.collider.intersects s.collider = true → s.damage < maxD →
      (bulletShelterStep maxD false w).shelters =
        [{ s with damage := s.damage + 1 }] ∧
      (bulletShelterStep maxD false w).bullets =
        [{ b with alive := false }]) ∧
    ((bulletShelterStep 9 false worldC9).shelters =
      [⟨⟨18, 22⟩, ⟨60, 40⟩, 9, true⟩] ∧
     (bulletShelterStep 9 false worldC9).bullets =
      [⟨⟨20, 20⟩, ⟨6, 14⟩, ⟨0, 100⟩, .alien, false⟩]) := by
  refine ⟨?_, ?_, ?_, ?_⟩
  · intro maxD dom w
    rw [bulletShelterStep]
    split
    · exact List.forall₂_same.2 fun _ _ => ⟨le_rfl, id⟩
    · exact bsGo_shelters_damage w maxD dom w.bullets w.shelters w.effects
  · intro maxD w
    rw [bulletShelterStep]
    split
    · rename_i hguard
      simp only [Bool.or_eq_true] at hguard
      rcases hguard with hb | hs
      · rw [List.isEmpty_iff.1 hb]
        exact .nil
      · refine List.forall₂_same.2 fun b _ => fun _ _ hex => ?_
        rw [List.isEmpty_iff.1 hs] at hex
        simp at hex
    · exact bsGo_kills w maxD w.bullets w.shelters w.effects
  · intro maxD w b s hb hs halive howner hsalive hint hdmg
    have hcond : (s.alive && b.collider.intersects s.collider) = true := by
      simp [hsalive, hint]
    have hbcond : (b.alive && b.owner == BulletOwner.alien) = true := by
      simp [halive, howner]
    rw [bulletShelterStep, hb, hs]
    simp only [List.isEmpty_cons, Bool.false_or, Bool.or_self, if_false,
      Bool.false_eq_true]
    rw [bsGo, if_pos hbcond]
    simp only [hitFirstShelter, hcond, if_true, if_pos hdmg]
    rw [bsGo]
    dsimp only
    constructor
    · simp
    · rfl
  · constructor
    · with_unfolding_all rfl
    · with_unfolding_all rfl

/-- Witness for C9, instantiating the single-hit part at the concrete
scenario world. -/
theorem C9_shelter_damage_accounting_witness :
    (bulletShelterStep 9 false worldC9).shelters =
      [{ (⟨⟨18, 22⟩, ⟨60, 40⟩, 8, true⟩ : Shelter) with damage := 8 + 1 }] ∧
    (bulletShelterStep 9 false worldC9).bullets =
      [{ (⟨⟨20, 20⟩, ⟨6, 14⟩, ⟨0, 100⟩, BulletOwner.alien, true⟩ : Bullet)
          with alive := false }] :=
  C9_shelter_damage_accounting.2.2.1 9 worldC9
    ⟨⟨20, 20⟩, ⟨6, 14⟩, ⟨0, 100⟩, .alien, true⟩
    ⟨⟨18, 22⟩, ⟨60, 40⟩, 8, true⟩
    rfl rfl rfl rfl rfl (by with_unfolding_all rfl) (by norm_num)

/-! ### Claim C2 — the shield intercepts alien bullets before the ship -/

/-- The bullet–missile pass does not touch the ship or shield state. -/
theorem bmStep_pres (w : World) :
    (bmStep w).ship = w.ship ∧ (bmStep w).shield_active = w.shield_active ∧
    (bmStep w).shield_scale = w.shield_scale := by
  rw [bmStep]
  split <;> exact ⟨rfl, rfl, rfl⟩

/-- The bullet–bullet pass does not touch the ship or shield state. -/
theorem bbStep_pres (w : World) :
    (bbStep w).ship = w.ship ∧ (bbStep w).shield_active = w.shield_active ∧
    (bbStep w).shield_scale = w.shield_scale := by
  rw [bbStep]
  split
  · exact ⟨rfl, rfl, rfl⟩
  split
  · exact ⟨rfl, rfl, rfl⟩
  split
  · exact ⟨rfl, rfl, rfl⟩
  · exact ⟨rfl, rfl, rfl⟩

/-- The bullet–shelter pass does not touch the ship or shield state. -/
theorem bulletShelterStep_pres (maxD : Nat) (dom : Bool) (w : World) :
    (bulletShelterStep maxD dom w).ship = w.ship ∧
    (bulletShelterStep maxD dom w).shield_active = w.shield_active ∧
    (bulletShelterStep maxD dom w).shield_scale = w.shield_scale := by
  rw [bulletShelterStep]
  split <;> exact ⟨rfl, rfl, rfl⟩

/-- The shield pass does not touch the ship or the shield flag. -/
theorem bulletShieldStep_pres (w : World) :
    (bulletShieldStep w).ship = w.ship ∧
    (bulletShieldStep w).shield_active = w.shield_active := by
  rw [bulletShieldStep]
  split <;> exact ⟨rfl, rfl⟩

/-- The beam-damage pass touches only the aliens. -/
theorem omegaDamageStep_pres (w : World) :
    (omegaDamageStep w).ship = w.ship ∧
    (omegaDamageStep w).shield_active = w.shield_active ∧
    (omegaDamageStep w).bullets = w.bullets := by
  rw [omegaDamageStep]
  split
  · exact ⟨rfl, rfl, rfl⟩
  · split
    · exact ⟨rfl, rfl, rfl⟩
    · split
      · exact ⟨rfl, rfl, rfl⟩
      · dsimp only
        split <;> exact ⟨rfl, rfl, rfl⟩

/-- The missile–alien pass touches only missiles and aliens. -/
theorem missileAlienStep_pres (w : World) :
    (missileAlienStep w).ship = w.ship ∧
    (missileAlienStep w).shield_active = w.shield_active ∧
    (missileAlienStep w).bullets = w.bullets := by
  rw [missileAlienStep]
  split <;> exact ⟨rfl, rfl, rfl⟩

/-- The bullet–alien pass does not touch the ship or shield state. -/
theorem bulletAlienStep_pres (w : World) :
    (bulletAlienStep w).ship = w.ship ∧
    (bulletAlienStep w).shield_active = w.shield_active := by
  rw [bulletAlienStep]
  split <;> exact ⟨rfl, rfl⟩

/-- The ship-hit pass is skipped entirely while the shield is active. -/
theorem bulletShipStep_shielded (w : World) (hact : w.shield_active = true) :
    bulletShipStep w = w := by
  rw [bulletShipStep]
  by_cases h1 : (w.ship.exploding || w.bullets.isEmpty) = true
  · rw [if_pos h1]
  · rw [if_neg h1, if_pos hact]

/-- The bullet–alien pass keeps every bullet's owner, and keeps alien-owned
bullets entirely unchanged (it only consumes ship-owned bullets). -/
theorem baGo_alien_bullets (bs : List Bullet) :
    ∀ als, List.Forall₂ (fun b b' : Bullet =>
      b'.owner = b.owner ∧ (b.owner = .alien → b' = b)) bs (baGo bs als).1 := by
  induction bs with
  | nil => intro als; exact .nil
  | cons b bs ih =>
    intro als
    rw [baGo]
    by_cases hb : (b.alive && b.owner == BulletOwner.ship) = true
    · rw [if_pos hb]
      simp only [Bool.and_eq_true, beq_iff_eq] at hb
      rcases hfa : explodeFirstAlien b als with ⟨als', hit⟩
      cases hit
      · dsimp only
        exact .cons ⟨rfl, fun _ => rfl⟩ (ih als)
      · dsimp only
        refine .cons ⟨rfl, fun howner => ?_⟩ (ih als')
        rw [hb.2] at howner
        exact absurd howner (by simp)
    · rw [if_neg hb]
      exact .cons ⟨rfl, fun _ => rfl⟩ (ih als)

/-- Like `baGo_alien_bullets`, lifted to the pass. -/
theorem bulletAlienStep_alien_bullets (w : World) :
    List.Forall₂ (fun b b' : Bullet =>
      b'.owner = b.owner ∧ (b.owner = .alien → b' = b))
      w.bullets (bulletAlienStep w).bullets := by
  rw [bulletAlienStep]
  split
  · exact List.forall₂_same.2 fun _ _ => ⟨rfl, fun _ => rfl⟩
  · exact baGo_alien_bullets w.bullets w.aliens

/-- Membership on the right of a `Forall₂` comes from a related member on
the left. -/
theorem forall₂_mem_right {α β : Type} {r : α → β → Prop} :
    ∀ {l1 : List α} {l2 : List β}, List.Forall₂ r l1 l2 →
      ∀ {b : β}, b ∈ l2 → ∃ a ∈ l1, r a b := by
  intro l1 l2 h
  induction h with
  | nil => intro b hb; cases hb
  | cons hr h' ih =>
    intro b hb
    rcases List.mem_cons.1 hb with rfl | hb'
    · exact ⟨_, List.mem_cons_self _ _, hr⟩
    · rcases ih hb' with ⟨a, ha, har⟩
      exact ⟨a, List.mem_cons_of_mem _ ha, har⟩

/-- After the shield pass (shield active), every alien-owned bullet that
overlaps the shield rectangle is dead. -/
theorem bulletShieldStep_post (w : World) (hact : w.shield_active = true) :
    ∀ b' ∈ (bulletShieldStep w).bullets, b'.owner = .alien →
      (shieldRect w).intersects b'.collider = true → b'.alive = false := by
  rw [bulletShieldStep]
  split
  · rename_i hguard
    rw [hact] at hguard
    simp only [Bool.not_true, Bool.false_or] at hguard
    intro b' hmem
    rw [List.isEmpty_iff.1 hguard] at hmem
    cases hmem
  · intro b' hmem howner hint
    simp only [List.mem_map] at hmem
    rcases hmem with ⟨b, hb, rfl⟩
    by_cases hc : (b.alive && b.owner == BulletOwner.alien &&
        (shieldRect w).intersects b.collider) = true
    · rw [if_pos hc]
    · rw [if_neg hc]
      rw [if_neg hc] at howner hint
      simp only [Bool.and_eq_true, beq_iff_eq] at hc
      cases halive : b.alive
      · rfl
      · exact absurd ⟨⟨halive, howner⟩, hint⟩ hc

/-- C2: on a tick whose collision phase starts with the shield active and
the ship not exploding, every alien-owned bullet whose rectangle overlaps
the scaled shield rectangle is dead after the collision passes, and the
ship's exploding flag is still false — regardless of whether those bullets
also overlap the ship's own rectangle. -/
theorem C2_shield_intercepts (w : World) (hact : w.shield_active = true)
    (hexp : w.ship.exploding = false) :
    (∀ b' ∈ (collisionPhase w).bullets, b'.owner = .alien →
      (shieldRect w).intersects b'.collider = true → b'.alive = false) ∧
    (collisionPhase w).ship.exploding = false := by
  set w1 := bmStep w with hw1
  set w2 := bbStep w1 with hw2
  set w3 := bulletShelterStep 9 false w2 with hw3
  set w4 := bulletShieldStep w3 with hw4
  set w5 := omegaDamageStep w4 with hw5
  set w6 := missileAlienStep w5 with hw6
  set w7 := bulletAlienStep w6 with hw7
  have hship3 : w3.ship = w.ship := by
    rw [hw3, hw2, hw1, (bulletShelterStep_pres _ _ _).1, (bbStep_pres _).1,
      (bmStep_pres _).1]
  have hscale3 : w3.shield_scale = w.shield_scale := by
    rw [hw3, hw2, hw1, (bulletShelterStep_pres _ _ _).2.2, (bbStep_pres _).2.2,
      (bmStep_pres _).2.2]
  have hact3 : w3.shield_active = true := by
    rw [hw3, hw2, hw1, (bulletShelterStep_pres _ _ _).2.1, (bbStep_pres _).2.1,
      (bmStep_pres _).2.1, hact]
  have hrect : shieldRect w3 = shieldRect w := by
    rw [shieldRect, shieldRect, hship3, hscale3]
  have hact4 : w4.shield_active = true := by
    rw [hw4, (bulletShieldStep_pres _).2, hact3]
  have hact5 : w5.shield_active = true := by
    rw [hw5, (omegaDamageStep_pres _).2.1, hact4]
  have hact6 : w6.shield_active = true := by
    rw [hw6, (missileAlienStep_pres _).2.1, hact5]
  have hact7 : w7.shield_active = true := by
    rw [hw7, (bulletAlienStep_pres _).2, hact6]
  have hphase : collisionPhase w = w7 := by
    rw [collisionPhase]
    exact bulletShipStep_shielded w7 hact7
  have hb4 : ∀ b' ∈ w4.bullets, b'.owner = .alien →
      (shieldRect w).intersects b'.collider = true → b'.alive = false := by
    intro b' hmem howner hint
    rw [← hrect] at hint
    exact bulletShieldStep_post w3 hact3 b' hmem howner hint
  have hb6 : w6.bullets = w4.bullets := by
    rw [hw6, (missileAlienStep_pres _).2.2, hw5, (omegaDamageStep_pres _).2.2]
  constructor
  · intro b' hmem howner hint
    rw [hphase, hw7] at hmem
    rcases forall₂_mem_right (bulletAlienStep_alien_bullets w6) hmem
      with ⟨b, hbmem, hrel⟩
    have howner' : b.owner = .alien := by rw [← hrel.1, howner]
    have hbb : b' = b := hrel.2 howner'
    subst hbb
    rw [hb6] at hbmem
    exact hb4 b' hbmem howner hint
  · rw [hphase, hw7, (bulletAlienStep_pres _).1, hw6,
      (missileAlienStep_pres _).1, hw5, (omegaDamageStep_pres _).1, hw4,
      (bulletShieldStep_pres _).1, hship3, hexp]

/-- Witness for C2 at a concrete input (the bullet also overlaps the ship's
own rectangle there). -/
theorem C2_shield_intercepts_witness :
    (∀ b' ∈ (collisionPhase worldC2).bullets, b'.owner = .alien →
      (shieldRect worldC2).intersects b'.collider = true →
      b'.alive = false) ∧
    (collisionPhase worldC2).ship.exploding = false :=
  C2_shield_intercepts worldC2 rfl rfl

/-! ### Claim C10 — ship bullets versus player missiles -/

/-- One `killFirstMissile` scan: missile rectangles are unchanged and
aliveness only decreases. -/
theorem killFirstMissile_skeleton (b : Bullet) (ms : List Missile) :
    List.Forall₂ (fun m m' : Missile =>
      m'.collider = m.collider ∧ (m'.alive = true → m.alive = true))
      ms (killFirstMissile b ms).1 := by
  induction ms with
  | nil => exact .nil
  | cons m ms ih =>
    by_cases h : (m.alive && b.collider.intersects m.collider) = true
    · simp only [killFirstMissile, h, if_true]
      refine .cons ⟨rfl, fun hfalse => ?_⟩
        (List.forall₂_same.2 fun _ _ => ⟨rfl, id⟩)
      cases hfalse
    · simp only [killFirstMissile, h, Bool.false_eq_true, if_false]
      exact .cons ⟨rfl, id⟩ ih

/-- When `killFirstMissile` reports no hit, no live missile in the list
overlaps the bullet. -/
theorem killFirstMissile_miss (b : Bullet) (ms : List Missile)
    (h : (killFirstMissile b ms).2 = false) :
    ∀ m ∈ ms, m.alive = true → b.collider.intersects m.collider = false := by
  induction ms with
  | nil => intro m hm; cases hm
  | cons m ms ih =>
    by_cases hc : (m.alive && b.collider.intersects m.collider) = true
    · rw [killFirstMissile] at h
      rw [if_pos hc] at h
      cases h
    · rw [killFirstMissile] at h
      rw [if_neg hc] at h
      intro m' hm' halive
      rcases List.mem_cons.1 hm' with rfl | hm''
      · simp only [halive, Bool.true_and] at hc
        simpa using hc
      · exact ih h m' hm'' halive

/-- The missile list through the whole bullet–missile pass: rectangles are
unchanged and aliveness only decreases. -/
theorem bmGo_missiles_skeleton (w : World) (bs : List Bullet) :
    ∀ (ms : List Missile) (es : List Effect),
      List.Forall₂ (fun m m' : Missile =>
        m'.collider = m.collider ∧ (m'.alive = true → m.alive = true))
        ms (bmGo w bs ms es).2.1 := by
  induction bs with
  | nil =>
    intro ms es
    exact List.forall₂_same.2 fun _ _ => ⟨rfl, id⟩
  | cons b bs ih =>
    intro ms es
    rw [bmGo]
    by_cases hb : (b.alive && b.owner == BulletOwner.ship) = true
    · rw [if_pos hb]
      rcases hk : killFirstMissile b ms with ⟨ms', hit⟩
      have hskel := killFirstMissile_skeleton b ms
      rw [hk] at hskel
      cases hit
      · try dsimp only
        rcases hgo : bmGo w bs ms es with ⟨bs', ms'', es''⟩
        have h2 := ih ms es
        rw [hgo] at h2
        exact h2
      · try dsimp only
        rcases hgo : bmGo w bs ms' (hitEffect es w b.position.x b.position.y)
          with ⟨bs', ms'', es''⟩
        have h2 := ih ms' (hitEffect es w b.position.x b.position.y)
        rw [hgo] at h2
        exact forall₂_chain
          (fun _ _ _ hab hbc =>
            ⟨hbc.1.trans hab.1, fun halive => hab.2 (hbc.2 halive)⟩)
          hskel h2
    · rw [if_neg hb]
      rcases hgo : bmGo w bs ms es with ⟨bs', ms'', es''⟩
      dsimp only
      have h2 := ih ms es
      rw [hgo] at h2
      exact h2

/-- After the bullet–missile pass, no live ship-owned bullet overlaps a live
missile: for every intersecting pair, at least one side is dead. -/
theorem bmGo_no_live_overlap (w : World) (bs : List Bullet) :
    ∀ (ms : List Missile) (es : List Effect),
      ∀ b' ∈ (bmGo w bs ms es).1, ∀ m' ∈ (bmGo w bs ms es).2.1,
        b'.owner = .ship → b'.alive = true → m'.alive = true →
        b'.collider.intersects m'.collider = false := by
  induction bs with
  | nil =>
    intro ms es b' hb'
    cases hb'
  | cons b bs ih =>
    intro ms es
    rw [bmGo]
    by_cases hb : (b.alive && b.owner == BulletOwner.ship) = true
    · rw [if_pos hb]
      rcases hk : killFirstMissile b ms with ⟨ms', hit⟩
      cases hit
      · try dsimp only
        rcases hgo : bmGo w bs ms es with ⟨bs', ms'', es''⟩
        have hmiss : (killFirstMissile b ms).2 = false := by rw [hk]
        have hmono := bmGo_missiles_skeleton w bs ms es
        rw [hgo] at hmono
        have h2 := ih ms es
        rw [hgo] at h2
        dsimp only
        intro b' hb' m' hm' howner halive hmalive
        rcases List.mem_cons.1 hb' with rfl | hb''
        · rcases forall₂_mem_right hmono hm' with ⟨m, hm, hrel⟩
          rw [hrel.1]
          exact killFirstMissile_miss _ ms hmiss m hm (hrel.2 hmalive)
        · exact h2 b' hb'' m' hm' howner halive hmalive
      · try dsimp only
        rcases hgo : bmGo w bs ms' (hitEffect es w b.position.x b.position.y)
          with ⟨bs', ms'', es''⟩
        have h2 := ih ms' (hitEffect es w b.position.x b.position.y)
        rw [hgo] at h2
        dsimp only
        intro b' hb' m' hm' howner halive hmalive
        rcases List.mem_cons.1 hb' with rfl | hb''
        · cases halive
        · exact h2 b' hb'' m' hm' howner halive hmalive
    · rw [if_neg hb]
      rcases hgo : bmGo w bs ms es with ⟨bs', ms'', es''⟩
      dsimp only
      intro b' hb' m' hm' howner halive hmalive
      rcases List.mem_cons.1 hb' with rfl | hb''
      · exact absurd (by simp [halive, howner]) hb
      · have h2 := ih ms es
        rw [hgo] at h2
        exact h2 b' hb'' m' hm' howner halive hmalive

/-- Counterexample to C10 as stated: in `worldC10` the (live, ship-owned)
bullet overlaps both live missiles, yet after the pass the second missile is
still alive — the inner loop breaks after the first hit, so "both projectiles
are marked dead" fails for the bullet/second-missile pair. -/
theorem C10_counterexample :
    ((worldC10.bullets.get? 0).map (fun b => b.alive) = some true ∧
     (worldC10.bullets.get? 0).map (fun b => b.owner) = some .ship ∧
     (worldC10.missiles.get? 1).map (fun m => m.alive) = some true ∧
     ((worldC10.bullets.get? 0).bind fun b =>
       (worldC10.missiles.get? 1).map fun m =>
         b.collider.intersects m.collider) = some true) ∧
    ((bmStep worldC10).missiles.get? 1).map (fun m => m.alive) =
      some true := by
  constructor
  · refine ⟨rfl, rfl, rfl, ?_⟩
    with_unfolding_all rfl
  · with_unfolding_all rfl

/-- C10 (amended): the pass kills a live ship bullet and a live missile at
the moment it tests an overlapping pair, so (1) after the pass no
ship-owned bullet and missile that are both still alive overlap, and (2) a
sole live ship bullet overlapping a sole live missile leaves both projectiles
marked dead; when a projectile overlaps several candidates only the first
tested pair dies, because the inner loop breaks. -/
theorem C10_bullet_missile_mutual_destruction :
    (∀ (w : World), ∀ b' ∈ (bmStep w).bullets, ∀ m' ∈ (bmStep w).missiles,
      b'.owner = .ship → b'.alive = true → m'.alive = true →
      b'.collider.intersects m'.collider = false) ∧
    (∀ (w : World) (b : Bullet) (m : Missile),
      w.bullets = [b] → w.missiles = [m] → b.alive = true →
      b.owner = .ship → m.alive = true →
      b.collider.intersects m.collider = true →
      (bmStep w).bullets = [{ b with alive := false }] ∧
      (bmStep w).missiles = [{ m with alive := false }]) := by
  constructor
  · intro w
    rw [bmStep]
    split
    · rename_i hguard
      simp only [Bool.or_eq_true] at hguard
      intro b' hb' m' hm' howner halive hmalive
      rcases hguard with hb | hm
      · rw [List.isEmpty_iff.1 hb] at hb'
        cases hb'
      · rw [List.isEmpty_iff.1 hm] at hm'
        cases hm'
    · exact bmGo_no_live_overlap w w.bullets w.missiles w.effects
  · intro w b m hbs hms halive howner hmalive hint
    have hbcond : (b.alive && b.owner == BulletOwner.ship) = true := by
      simp [halive, howner]
    have hmcond : (m.alive && b.collider.intersects m.collider) = true := by
      simp [hmalive, hint]
    rw [bmStep, hbs, hms]
    simp only [List.isEmpty_cons, Bool.or_self, Bool.false_eq_true, if_false]
    rw [bmGo, if_pos hbcond]
    simp only [killFirstMissile, hmcond, if_true]
    rw [bmGo]
    dsimp only
    exact ⟨rfl, rfl⟩

/-- Witness for the amended C10, instantiating the single-pair part. -/
theorem C10_bullet_missile_mutual_destruction_witness :
    (bmStep { world0 with
        bullets := [⟨⟨0, 0⟩, ⟨4, 10⟩, ⟨0, 0⟩, .ship, true⟩]
        missiles := [⟨⟨0, 0⟩, ⟨5, 5⟩, ⟨0, 0⟩, true, some 1, 520⟩] }).bullets =
      [{ (⟨⟨0, 0⟩, ⟨4, 10⟩, ⟨0, 0⟩, BulletOwner.ship, true⟩ : Bullet) with
          alive := false }] ∧
    (bmStep { world0 with
        bullets := [⟨⟨0, 0⟩, ⟨4, 10⟩, ⟨0, 0⟩, .ship, true⟩]
        missiles := [⟨⟨0, 0⟩, ⟨5, 5⟩, ⟨0, 0⟩, true, some 1, 520⟩] }).missiles =
      [{ (⟨⟨0, 0⟩, ⟨5, 5⟩, ⟨0, 0⟩, true, some 1, 520⟩ : Missile) with
          alive := false }] :=
  C10_bullet_missile_mutual_destruction.2
    { world0 with
        bullets := [⟨⟨0, 0⟩, ⟨4, 10⟩, ⟨0, 0⟩, .ship, true⟩]
        missiles := [⟨⟨0, 0⟩, ⟨5, 5⟩, ⟨0, 0⟩, true, some 1, 520⟩] }
    ⟨⟨0, 0⟩, ⟨4, 10⟩, ⟨0, 0⟩, .ship, true⟩
    ⟨⟨0, 0⟩, ⟨5, 5⟩, ⟨0, 0⟩, true, some 1, 520⟩
    rfl rfl rfl rfl rfl (by with_unfolding_all rfl)

/-! ### Claim C5 — missile target loss -/

/-- The missile cull keeps only live missiles. -/
theorem missileCullStep_alive :
    ∀ w : World, ∀ m' ∈ (missileCullStep w).missiles, m'.alive = true := by
  intro w m' hmem
  rw [missileCullStep] at hmem
  split at hmem
  · rename_i hguard
    rw [List.isEmpty_iff.1 hguard] at hmem
    cases hmem
  · simp only [List.mem_filter, Bool.and_eq_true] at hmem
    exact hmem.2.1

/-- The bullet cull keeps only live bullets. -/
theorem bulletCullStep_alive :
    ∀ w : World, ∀ b' ∈ (bulletCullStep w).bullets, b'.alive = true := by
  intro w b' hmem
  rw [bulletCullStep] at hmem
  simp only [List.mem_filter, Bool.and_eq_true] at hmem
  exact hmem.2.1

/-- Counterexample to C5 as stated: with an empty alien roster the live
missile whose stored target identity (5) is absent from the non-exploding
aliens is *not* marked dead by the missile-target evaluation of the tick. -/
theorem C5_counterexample :
    worldC5.aliens = [] ∧
    (worldC5.missiles.get? 0).map (fun m => m.alive) = some true ∧
    (worldC5.missiles.get? 0).map (fun m => m.target_id) = some (some 5) ∧
    ((missileAlienStep worldC5).missiles.get? 0).map (fun m => m.alive) =
      some true :=
  ⟨rfl, rfl, rfl, by with_unfolding_all rfl⟩

/-- Missiles through `maGo`: a live missile whose stored target identity is
not among the snapshot of live-alien identities comes out dead. -/
theorem maGo_fizzle (aliveIds : List Nat) (ms : List Missile) :
    ∀ als, List.Forall₂ (fun m m' : Missile =>
      ∀ tid, m.alive = true → m.target_id = some tid →
        aliveIds.contains tid = false → m'.alive = false)
      ms (maGo aliveIds ms als).1 := by
  induction ms with
  | nil => intro als; exact .nil
  | cons m ms ih =>
    intro als
    rw [maGo]
    by_cases hal : (!m.alive) = true
    · rw [if_pos hal]
      refine .cons (fun tid halive _ _ => ?_) (ih als)
      rw [halive] at hal
      cases hal
    · rw [if_neg hal]
      cases htid : m.target_id with
      | none =>
        dsimp only
        refine .cons (fun tid _ htid' _ => ?_) (ih als)
        rw [htid] at htid'
        cases htid'
      | some tid0 =>
        dsimp only
        by_cases hcont : (!aliveIds.contains tid0) = true
        · rw [if_pos hcont]
          exact .cons (fun _ _ _ _ => rfl) (ih als)
        · rw [if_neg hcont]
          have habsent : ∀ tid, m.target_id = some tid →
              aliveIds.contains tid = false → False := by
            intro tid htid' hfalse
            rw [htid] at htid'
            cases htid'
            rw [hfalse] at hcont
            exact hcont rfl
          cases hfind : als.find? (fun a => a.id == tid0) with
          | none =>
            dsimp only
            exact .cons (fun tid _ htid' hfalse =>
              absurd (habsent tid htid' hfalse) not_false) (ih als)
          | some target =>
            dsimp only
            by_cases hhit : m.collider.intersects target.collider = true
            · rw [if_pos hhit]
              exact .cons (fun _ _ _ _ => rfl) (ih (explodeAlien als tid0))
            · rw [if_neg hhit]
              exact .cons (fun tid _ htid' hfalse =>
                absurd (habsent tid htid' hfalse) not_false) (ih als)

/-- C5 (amended): provided the alien collection is non-empty — the pass
returns early on an empty roster — a live missile whose stored target
identity is absent from the non-exploding aliens is marked dead by the
missile-target evaluation of the tick, and the missile culling pass keeps
only live missiles (so dead missiles are removed from `world.missiles`). -/
theorem C5_missile_target_loss :
    (∀ w : World, w.aliens ≠ [] →
      List.Forall₂ (fun m m' : Missile =>
        ∀ tid, m.alive = true → m.target_id = some tid →
          (∀ a ∈ w.aliens, a.exploding = false → a.id ≠ tid) →
          m'.alive = false)
        w.missiles (missileAlienStep w).missiles) ∧
    (∀ w : World, ∀ m' ∈ (missileCullStep w).missiles, m'.alive = true) := by
  constructor
  · intro w hne
    have hcontains : ∀ tid : Nat,
        (∀ a ∈ w.aliens, a.exploding = false → a.id ≠ tid) →
        ((w.aliens.filter fun a => !a.exploding).map (·.id)).contains tid =
          false := by
      intro tid h
      rw [← Bool.not_eq_true]
      intro hmem
      rw [List.contains_eq_any_beq] at hmem
      simp only [List.any_eq_true, List.mem_map, List.mem_filter,
        beq_iff_eq] at hmem
      rcases hmem with ⟨x, ⟨a, ⟨hmem', hexp'⟩, rfl⟩, heq⟩
      exact h a hmem' (by simpa using hexp') heq.symm
    rw [missileAlienStep]
    split
    · rename_i hguard
      simp only [Bool.or_eq_true] at hguard
      rcases hguard with hm | ha
      · rw [List.isEmpty_iff.1 hm]
        exact .nil
      · exact absurd (List.isEmpty_iff.1 ha) hne
    · refine (maGo_fizzle _ w.missiles w.aliens).imp fun m m' hrel => ?_
      intro tid halive htid habs
      exact hrel tid halive htid (hcontains tid habs)
  · exact missileCullStep_alive

/-- Witness for the amended C5: with a non-empty roster not containing the
stored identity, the missile is dead after the pass. -/
theorem C5_missile_target_loss_witness :
    List.Forall₂ (fun m m' : Missile =>
      ∀ tid, m.alive = true → m.target_id = some tid →
        (∀ a ∈ worldC5w.aliens, a.exploding = false → a.id ≠ tid) →
        m'.alive = false)
      worldC5w.missiles (missileAlienStep worldC5w).missiles ∧
    ((missileAlienStep worldC5w).missiles.get? 0).map (fun m => m.alive) =
      some false :=
  ⟨C5_missile_target_loss.1 worldC5w (by simp [worldC5w]),
    by with_unfolding_all rfl⟩

/-! ### Claim C3 — beam weapon state machine and damage -/

/-- Counterexample to C3 as stated: in `worldC3` the beam is active, the
non-exploding alien's rectangle intersects the claim's strip (down to the
ship's vertical position), yet the tick's damage pass leaves its exploding
flag false. -/
theorem C3_counterexample :
    worldC3.omega_active = true ∧
    worldC3.omega_x = some 0 ∧
    (worldC3.aliens.get? 0).map (fun a => a.exploding) = some false ∧
    (worldC3.aliens.get? 0).map
      (fun a => (omegaStripSpec worldC3 0).intersects a.collider) =
      some true ∧
    ((omegaDamageStep worldC3).aliens.get? 0).map (fun a => a.exploding) =
      some false :=
  ⟨rfl, rfl, rfl, by with_unfolding_all rfl, by with_unfolding_all rfl⟩

/-- The beam state machine never touches the aliens. -/
theorem omegaRayStep_aliens (w : World) (it : Intent) (dt : ℚ) :
    (omegaRayStep w it dt).aliens = w.aliens := by
  rw [omegaRayStep]
  dsimp only
  repeat' first | rfl | split

/-- While charging with time still left on the charge timer, the beam stays
inactive through the state-machine step. -/
theorem omegaRayStep_still_charging (w : World) (it : Intent) (dt : ℚ)
    (hact : w.omega_active = false) (hch : 0 < w.omega_charge_timer)
    (hleft : 0 < w.omega_charge_timer - dt) :
    (omegaRayStep w it dt).omega_active = false := by
  rw [omegaRayStep]
  rw [if_neg (by simp [hact])]
  rw [if_pos (by simpa using hch)]
  rw [if_neg (by simp; linarith)]
  exact hact

/-- C3 (amended):
(1) a beam-fire intent arriving while the cooldown timer is still positive
after the frame's countdown (the code checks the already-ticked timer) has
no effect: the step equals the same step without the intent, and the beam's
active flag, charge timer, active timer and locked offset are unchanged;
(2) while the charge timer has not yet expired, the beam deals no damage:
the state machine leaves the aliens untouched and keeps the beam inactive,
and the damage pass is the identity on an inactive beam;
(3) on a tick with the beam active, every alien whose rectangle intersects
the code's strip — locked offset, fixed width, from the top of the field
down to `⌊ship.y⌋` (the claim says down to `ship.y`; `int()` truncates) —
has its exploding flag set by the damage pass, provided `⌊ship.y⌋ > 0`. -/
theorem C3_omega_ray :
    (∀ (w : World) (it : Intent) (dt : ℚ),
      w.omega_active = false → w.omega_charge_timer ≤ 0 → 0 ≤ dt →
      0 < w.omega_cd_timer - dt →
      omegaRayStep w it dt =
        omegaRayStep w { it with fire_omega_ray := false } dt ∧
      (omegaRayStep w it dt).omega_active = false ∧
      (omegaRayStep w it dt).omega_charge_timer = w.omega_charge_timer ∧
      (omegaRayStep w it dt).omega_x = w.omega_x ∧
      (omegaRayStep w it dt).omega_timer = w.omega_timer) ∧
    (∀ (w : World) (it : Intent) (dt : ℚ),
      w.omega_active = false → 0 < w.omega_charge_timer →
      0 < w.omega_charge_timer - dt →
      omegaDamageStep (omegaRayStep w it dt) = omegaRayStep w it dt ∧
      (omegaRayStep w it dt).aliens = w.aliens) ∧
    (∀ (w : World) (bx : ℚ),
      w.omega_active = true → w.omega_x = some bx →
      0 < ⌊w.ship.position.y⌋ →
      ∀ (i : Nat) (a : Alien), w.aliens.get? i = some a →
        (omegaStripCode w bx).intersects a.collider = true →
        ∃ a', (omegaDamageStep w).aliens.get? i = some a' ∧
          a'.exploding = true) := by
  refine ⟨?_, ?_, ?_⟩
  · intro w it dt hact hch hdt hcd
    have hcdpos : 0 < w.omega_cd_timer := by linarith
    have hmax : max 0 (w.omega_cd_timer - dt) = w.omega_cd_timer - dt :=
      max_eq_right (le_of_lt hcd)
    have hcdfield :
        (if w.omega_cd_timer > 0 then max 0 (w.omega_cd_timer - dt)
          else w.omega_cd_timer) = w.omega_cd_timer - dt := by
      rw [if_pos hcdpos, hmax]
    have hstep : ∀ fire : Bool,
        omegaRayStep w { it with fire_omega_ray := fire } dt =
        { w with omega_cd_timer := w.omega_cd_timer - dt } := by
      intro fire
      rw [omegaRayStep]
      dsimp only
      rw [hcdfield]
      rw [if_neg (by simp [hact])]
      rw [if_neg (by simp; linarith)]
      cases fire
      · rw [if_pos (by simp)]
      · rw [if_neg (by simp)]
        rw [if_pos (by simp; linarith)]
    have hit : it = { it with fire_omega_ray := it.fire_omega_ray } := rfl
    have h1 : omegaRayStep w it dt =
        { w with omega_cd_timer := w.omega_cd_timer - dt } := by
      rw [hit]
      exact hstep it.fire_omega_ray
    rw [h1, hstep false]
    exact ⟨rfl, hact, rfl, rfl, rfl⟩
  · intro w it dt hact hch hleft
    have hinact := omegaRayStep_still_charging w it dt hact hch hleft
    constructor
    · rw [omegaDamageStep, if_pos (by simp [hinact])]
    · exact omegaRayStep_aliens w it dt
  · intro w bx hact hx hfloor i a hget hint
    have hne : w.aliens ≠ [] := by
      intro h
      rw [h] at hget
      cases hget
    rw [omegaDamageStep]
    rw [if_neg (by simp [hact])]
    rw [hx]
    dsimp only
    rw [if_neg (by simpa [List.isEmpty_iff] using hne)]
    have hH : ¬ (((max 0 ⌊w.ship.position.y⌋ : ℤ) : ℚ) ≤ 0) := by
      rw [max_eq_right (le_of_lt hfloor)]
      push_neg
      exact_mod_cast hfloor
    rw [if_neg hH]
    dsimp only
    rw [List.get?_map, hget]
    cases hexp : a.exploding
    · rw [Option.map_some']
      rw [if_neg (by simp [hexp])]
      have hint' : (Rect.intersects
          ⟨⟨bx, 0⟩, ⟨w.omega_width, ((max 0 ⌊w.ship.position.y⌋ : ℤ) : ℚ)⟩⟩
          a.collider) = true := hint
      rw [if_pos hint']
      exact ⟨_, rfl, rfl⟩
    · rw [Option.map_some']
      rw [if_pos (by simp [hexp])]
      exact ⟨a, rfl, hexp⟩

/-- Witness for the amended C3, one concrete input per part. -/
theorem C3_omega_ray_witness :
    (omegaRayStep worldC3cd { intent0 with fire_omega_ray := true } 0.5 =
      omegaRayStep worldC3cd intent0 0.5 ∧
     (omegaRayStep worldC3cd { intent0 with fire_omega_ray := true }
        0.5).omega_charge_timer = worldC3cd.omega_charge_timer) ∧
    omegaDamageStep (omegaRayStep worldC3ch intent0 0.5) =
      omegaRayStep worldC3ch intent0 0.5 ∧
    (∃ a', (omegaDamageStep worldC3act).aliens.get? 0 = some a' ∧
      a'.exploding = true) := by
  have h1 := C3_omega_ray.1 worldC3cd
    { intent0 with fire_omega_ray := true } 0.5 rfl (by norm_num [worldC3cd, world0])
    (by norm_num) (by norm_num [worldC3cd, world0])
  have h2 := C3_omega_ray.2.1 worldC3ch intent0 0.5 rfl
    (by norm_num [worldC3ch, world0]) (by norm_num [worldC3ch, world0])
  have h3 := C3_omega_ray.2.2 worldC3act 40 rfl rfl
    (by norm_num [worldC3act, world0, ship0])
    0 { alien0 with position := ⟨45, 20⟩ } rfl (by with_unfolding_all rfl)
  exact ⟨⟨h1.1, h1.2.2.1⟩, h2.1, h3⟩

/-! ### Claim C1 — mark-dead then cull -/

/-- The effects step does not touch the missiles. -/
theorem effectsStep_missiles (w : World) (dt : ℚ) :
    (effectsStep w dt).missiles = w.missiles := by
  rw [effectsStep]
  split <;> rfl

/-- Counterexample to C1 as stated: both bullets are alive when the frame's
culling pass runs (first conjunct: the state right after the bullet cull of
that frame), are marked dead by a collision pass later in the same frame,
and are still present — dead — in `world.bullets` at the end of the frame
(second conjunct), i.e. they survive their collection past the culling
stage of the frame that killed them. -/
theorem C1_counterexample :
    (frameUpToBulletCull worldC1 intent0 1 oracle0).bullets.map
      (fun b => b.alive) = [true, true] ∧
    (frame worldC1 intent0 1 oracle0).bullets.map
      (fun b => b.alive) = [false, false] :=
  ⟨by with_unfolding_all rfl, by with_unfolding_all rfl⟩

/-- C1 (amended): missiles behave as claimed — the missile cull (order 47)
runs after the collision passes and nothing after it touches missiles, so
after every frame every missile still in `world.missiles` is alive, i.e. a
missile marked dead in a collision pass is absent once the frame's missile
cull has run. Bullets are culled *before* the collision passes (order 36 vs
41–45), so a bullet marked dead in a collision pass survives to the end of
that frame (see the counterexample) and is removed by the bullet cull of
the next frame: whenever the bullet cull runs, every bullet it leaves in
`world.bullets` is alive. -/
theorem C1_deferred_removal :
    (∀ (w : World) (it : Intent) (dt : ℚ) (o : Oracle),
      ∀ m' ∈ (frame w it dt o).missiles, m'.alive = true) ∧
    (∀ w : World, ∀ b' ∈ (bulletCullStep w).bullets, b'.alive = true) := by
  constructor
  · intro w it dt o m' hmem
    rw [frame] at hmem
    rw [effectsStep_missiles] at hmem
    exact missileCullStep_alive _ m' hmem
  · exact bulletCullStep_alive

/-- Witness for the amended C1: a live in-bounds missile survives a frame
(membership discharged concretely), and the theorem yields its aliveness;
similarly a live in-bounds bullet for the cull half. -/
theorem C1_deferred_removal_witness :
    (⟨⟨50, 50⟩, ⟨14, 22⟩, ⟨0, -250⟩, true, some 5, 520⟩ : Missile).alive =
      true ∧
    (⟨⟨50, 50⟩, ⟨4, 10⟩, ⟨0, 0⟩, BulletOwner.ship, true⟩ : Bullet).alive =
      true := by
  have hlist : (frame worldC5 intent0 0 oracle0).missiles =
      [⟨⟨50, 50⟩, ⟨14, 22⟩, ⟨0, -250⟩, true, some 5, 520⟩] := by
    with_unfolding_all rfl
  have hmem : (⟨⟨50, 50⟩, ⟨14, 22⟩, ⟨0, -250⟩, true, some 5, 520⟩ :
      Missile) ∈ (frame worldC5 intent0 0 oracle0).missiles := by
    rw [hlist]
    exact List.mem_singleton_self _
  have hblist : (bulletCullStep worldC1).bullets.get? 0 =
      some ⟨⟨50, 50⟩, ⟨4, 10⟩, ⟨0, 0⟩, BulletOwner.ship, true⟩ := by
    with_unfolding_all rfl
  have hbmem : (⟨⟨50, 50⟩, ⟨4, 10⟩, ⟨0, 0⟩, BulletOwner.ship, true⟩ :
      Bullet) ∈ (bulletCullStep worldC1).bullets :=
    List.get?_mem hblist
  exact ⟨C1_deferred_removal.1 worldC5 intent0 0 oracle0 _ hmem,
    C1_deferred_removal.2 worldC1 _ hbmem⟩

end SpaceInvaders
